import Mathlib

/-!
Verification of the Statistical Comparative Analysis Engine of the
owl2-reasoner benchmarking repository
(src/benchmarking/established_reasoners/statistical_analysis_engine.py and
src/benchmarking/established_reasoners/enhanced_data_structures.py).

Numbers are embedded as rationals.  The external statistics routines the
engine calls (scipy.stats.shapiro, scipy.stats.levene, the t distribution
survival function and inverse CDF, the Mann-Whitney p computation and
math.sqrt) have no closed form; they are modelled as parameters collected
in a `StatsLib` record, with the shapes the code relies on.  Python
operations that can raise are embedded as `Except`-valued functions.
-/

namespace OwlStats

/-- Model of the external statistical library (scipy / math) used by the
engine.  `shapiroP data` is the p-value of `scipy.stats.shapiro(data)`;
`leveneP` is the p-value of `scipy.stats.levene` on a collection of groups
(Levene's statistic does not depend on the order in which the groups are
passed, so the argument is a multiset of groups); `tSF x df` is
`scipy.stats.t.sf(x, df)`; `mannP c pool` is the two-sided Mann-Whitney
p-value, a function of the centered statistic magnitude `c = |U - n1*n2/2|`
and of the combined sample `pool` (the two-sided p-value depends on U only
through its distance from the null mean, and on the pooled data for tie
handling); `tPPF df` is `scipy.stats.t.ppf(0.975, df)`; `sqrtQ` models
`math.sqrt`.  Calls that scipy may abort with an exception are
`Except`-valued. -/
structure StatsLib where
  shapiroP : List ℚ → Except Unit ℚ
  leveneP : Multiset (List ℚ) → Except Unit ℚ
  tSF : ℚ → ℚ → ℚ
  mannP : ℚ → Multiset ℚ → Except Unit ℚ
  tPPF : ℚ → ℚ
  sqrtQ : ℚ → ℚ
  logQ : ℚ → ℚ

/-- Arithmetic mean (`statistics.mean`); the engine only calls it on
non-empty lists. -/
def mean (l : List ℚ) : ℚ := l.sum / l.length

/-- Sample variance with denominator `n - 1` (`statistics.variance`); the
engine only calls it on lists with at least two elements. -/
def sampleVariance (l : List ℚ) : ℚ :=
  ((l.map (fun x => (x - mean l) ^ 2)).sum) / ((l.length : ℚ) - 1)

/-- Sample standard deviation (`statistics.stdev`), the square root of the
sample variance. -/
def sampleStdev (lib : StatsLib) (l : List ℚ) : ℚ :=
  lib.sqrtQ (sampleVariance l)

/-- `statistics.median`: middle element of the sorted data, or the average
of the two middle elements. -/
def median (l : List ℚ) : ℚ :=
  let s := List.insertionSort (fun a b : ℚ => a ≤ b) l
  let n := s.length
  if n % 2 = 1 then s.getD (n / 2) 0
  else (s.getD (n / 2 - 1) 0 + s.getD (n / 2) 0) / 2

/-- `numpy.percentile(data, p)` with the default linear interpolation:
with the data sorted ascending and `pos = (n-1)*p/100`, interpolate
between the elements at `floor pos` and `floor pos + 1`. -/
def percentileNp (l : List ℚ) (p : ℚ) : ℚ :=
  let s := List.insertionSort (fun a b : ℚ => a ≤ b) l
  let n := s.length
  let pos : ℚ := ((n : ℚ) - 1) * p / 100
  let i : ℕ := pos.floor.toNat
  let lo := s.getD i 0
  lo + (pos - pos.floor) * (s.getD (i + 1) lo - lo)

/-- `_check_normality` (statistical_analysis_engine.py, lines 639-648):
fewer than 3 points are classified non-normal; otherwise normal exactly
when the Shapiro-Wilk p-value exceeds the hard-coded 0.05; a scipy
exception is swallowed and classified non-normal. -/
def check_normality (lib : StatsLib) (data : List ℚ) : Bool :=
  if data.length < 3 then false
  else
    match lib.shapiroP data with
    | Except.ok p => decide (p > 1 / 20)
    | Except.error _ => false

/-- `_check_equal_variance` (lines 650-659): if either group has fewer
than 3 points the variances are classified equal; otherwise equal exactly
when the Levene p-value exceeds the hard-coded 0.05; a scipy exception is
swallowed and classified equal. -/
def check_equal_variance (lib : StatsLib) (data1 data2 : List ℚ) : Bool :=
  if data1.length < 3 ∨ data2.length < 3 then true
  else
    match lib.leveneP {data1, data2} with
    | Except.ok p => decide (p > 1 / 20)
    | Except.error _ => true

/-- The test-type string the branch structure of `_perform_statistical_test`
(lines 206-217) selects from the two normality classifications and the
variance-homogeneity classification. -/
def chooseTestType (lib : StatsLib) (data1 data2 : List ℚ) : String :=
  if check_normality lib data1 ∧ check_normality lib data2 ∧
      check_equal_variance lib data1 data2 then "Independent t-test"
  else if check_normality lib data1 ∧ check_normality lib data2 ∧
      ¬ check_equal_variance lib data1 data2 then "Welch's t-test"
  else "Mann-Whitney U test"

/-- `scipy.stats.ttest_ind(data1, data2, equal_var=True)`: the pooled
two-sample t statistic and its two-sided p-value `2*sf(|t|, n1+n2-2)`. -/
def ttestIndEqual (lib : StatsLib) (data1 data2 : List ℚ) : ℚ × ℚ :=
  let n1 : ℚ := data1.length
  let n2 : ℚ := data2.length
  let sp := lib.sqrtQ (((n1 - 1) * sampleVariance data1 +
    (n2 - 1) * sampleVariance data2) / (n1 + n2 - 2))
  let t := (mean data1 - mean data2) / (sp * lib.sqrtQ (1 / n1 + 1 / n2))
  (t, 2 * lib.tSF |t| (n1 + n2 - 2))

/-- `_welch_satterthwaite_df` (lines 702-710): the Welch-Satterthwaite
degrees of freedom, falling back to `min (n1-1) (n2-1)` when the
denominator is not positive. -/
def welch_satterthwaite_df (data1 data2 : List ℚ) : ℚ :=
  let var1 := sampleVariance data1
  let var2 := sampleVariance data2
  let n1 : ℚ := data1.length
  let n2 : ℚ := data2.length
  let numerator := (var1 / n1 + var2 / n2) ^ 2
  let denominator := var1 ^ 2 / (n1 ^ 2 * (n1 - 1)) + var2 ^ 2 / (n2 ^ 2 * (n2 - 1))
  if denominator > 0 then numerator / denominator else min (n1 - 1) (n2 - 1)

/-- `scipy.stats.ttest_ind(data1, data2, equal_var=False)` (Welch's
t-test): the unpooled t statistic and its two-sided p-value with
Welch-Satterthwaite degrees of freedom. -/
def ttestIndWelch (lib : StatsLib) (data1 data2 : List ℚ) : ℚ × ℚ :=
  let n1 : ℚ := data1.length
  let n2 : ℚ := data2.length
  let t := (mean data1 - mean data2) /
    lib.sqrtQ (sampleVariance data1 / n1 + sampleVariance data2 / n2)
  (t, 2 * lib.tSF |t| (welch_satterthwaite_df data1 data2))

/-- The contribution of one ordered pair of observations to the
Mann-Whitney U statistic: 1 when the first wins, 1/2 for a tie. -/
def mwScore (a b : ℚ) : ℚ := if b < a then 1 else if a = b then 1 / 2 else 0

/-- The Mann-Whitney U statistic of the first sample: the number of pairs
won by the first sample, ties counting one half. -/
def mannWhitneyU (data1 data2 : List ℚ) : ℚ :=
  (data1.map (fun a => (data2.map (fun b => mwScore a b)).sum)).sum

/-- `scipy.stats.mannwhitneyu(data1, data2, alternative='two-sided')`:
the U statistic of the first sample and the two-sided p-value (obtained
through `StatsLib.mannP`, which may fail as scipy does on degenerate
data). -/
def mannwhitneyuTwoSided (lib : StatsLib) (data1 data2 : List ℚ) :
    Except Unit (ℚ × ℚ) := do
  let u := mannWhitneyU data1 data2
  let n1 : ℚ := data1.length
  let n2 : ℚ := data2.length
  let p ← lib.mannP |u - n1 * n2 / 2| (↑data1 + ↑data2 : Multiset ℚ)
  pure (u, p)

/-- `_calculate_cohens_d` (lines 661-673): absolute standardized mean
difference with pooled standard deviation; 0 when the pooled standard
deviation vanishes. -/
def calculate_cohens_d (lib : StatsLib) (data1 data2 : List ℚ) : ℚ :=
  let mean1 := mean data1
  let mean2 := mean data2
  let std1 := if data1.length > 1 then sampleStdev lib data1 else 0
  let std2 := if data2.length > 1 then sampleStdev lib data2 else 0
  let n1 : ℚ := data1.length
  let n2 : ℚ := data2.length
  let pooled_std := lib.sqrtQ (((n1 - 1) * std1 ^ 2 + (n2 - 1) * std2 ^ 2) /
    (n1 + n2 - 2))
  if pooled_std = 0 then 0 else |mean1 - mean2| / pooled_std

/-- `_calculate_rank_biserial` (lines 675-678): `U/(n1*n2) - 0.5`. -/
def calculate_rank_biserial (data1 data2 : List ℚ) (statistic : ℚ) : ℚ :=
  statistic / ((data1.length : ℚ) * (data2.length : ℚ)) - 1 / 2

/-- `_calculate_confidence_interval` (lines 680-700): 95% confidence
interval for the mean difference with the Welch-Satterthwaite degrees of
freedom. -/
def calculate_confidence_interval (lib : StatsLib) (data1 data2 : List ℚ) :
    ℚ × ℚ :=
  let mean_diff := mean data1 - mean data2
  let se_diff := lib.sqrtQ (sampleVariance data1 / (data1.length : ℚ) +
    sampleVariance data2 / (data2.length : ℚ))
  let df := welch_satterthwaite_df data1 data2
  let margin_of_error := lib.tPPF df * se_diff
  (mean_diff - margin_of_error, mean_diff + margin_of_error)

/-- `StatisticalResult` (lines 30-40). -/
structure StatisticalResult where
  test_name : String
  test_type : String
  statistic : ℚ
  p_value : ℚ
  effect_size : ℚ
  confidence_interval : ℚ × ℚ
  interpretation : String
  significance_level : ℚ
deriving Repr, DecidableEq

/-- The chosen test's execution inside the `try` block of
`_perform_statistical_test`: the branch taken and its (statistic, p-value)
pair.  Only the Mann-Whitney call can raise; the t-test branches are
total. -/
def runChosenTest (lib : StatsLib) (data1 data2 : List ℚ) :
    Except Unit (String × ℚ × ℚ) :=
  if check_normality lib data1 ∧ check_normality lib data2 ∧
      check_equal_variance lib data1 data2 then
    let r := ttestIndEqual lib data1 data2
    Except.ok ("Independent t-test", r.1, r.2)
  else if check_normality lib data1 ∧ check_normality lib data2 ∧
      ¬ check_equal_variance lib data1 data2 then
    let r := ttestIndWelch lib data1 data2
    Except.ok ("Welch's t-test", r.1, r.2)
  else do
    let r ← mannwhitneyuTwoSided lib data1 data2
    pure ("Mann-Whitney U test", r.1, r.2)

/-- `_perform_statistical_test` (lines 195-257): run the selected test,
compute the effect size (Cohen's d for the t branches, the rank-biserial
approximation for Mann-Whitney), the confidence interval and the
interpretation string; any exception raised inside the `try` block is
converted to the fixed error record with test type "Error", statistic 0,
p-value 1, effect size 0 and confidence interval (0, 0). -/
def perform_statistical_test (lib : StatsLib) (significance_level : ℚ)
    (data1 data2 : List ℚ) (reasoner1 reasoner2 operation : String) :
    StatisticalResult :=
  match runChosenTest lib data1 data2 with
  | Except.ok (test_type, statistic, p_value) =>
    let effect_size :=
      if test_type = "Independent t-test" ∨ test_type = "Welch's t-test" then
        calculate_cohens_d lib data1 data2
      else calculate_rank_biserial data1 data2 statistic
    let mean_diff := mean data1 - mean data2
    let ci := calculate_confidence_interval lib data1 data2
    let significant := p_value < significance_level
    let interpretation :=
      if significant then
        reasoner1 ++ " is significantly " ++
          (if mean_diff < 0 then "faster" else "slower") ++ " than " ++
          reasoner2 ++ " for " ++ operation
      else
        "No significant difference between " ++ reasoner1 ++ " and " ++
          reasoner2 ++ " for " ++ operation
    { test_name := reasoner1 ++ "_vs_" ++ reasoner2 ++ "_" ++ operation
      test_type := test_type
      statistic := statistic
      p_value := p_value
      effect_size := effect_size
      confidence_interval := ci
      interpretation := interpretation
      significance_level := significance_level }
  | Except.error _ =>
    { test_name := reasoner1 ++ "_vs_" ++ reasoner2 ++ "_" ++ operation
      test_type := "Error"
      statistic := 0
      p_value := 1
      effect_size := 0
      confidence_interval := (0, 0)
      interpretation := "Statistical test failed"
      significance_level := significance_level }

/-- `MemoryMetrics` from memory_profiler.py as consumed by the engine:
only the peak memory figure is read. -/
structure MemoryMetrics where
  peak_memory_mb : ℚ
deriving Repr, DecidableEq

/-- `PublicationTestResult` (enhanced_data_structures.py, lines 43-95),
restricted to the fields the statistical engine reads.  `test_operation`
holds the enum's string value. -/
structure PublicationTestResult where
  reasoner_name : String
  test_operation : String
  success : Bool
  execution_time_ms : ℚ
  timeout_occurred : Bool
  triples_count : ℤ
  memory_metrics : Option MemoryMetrics
deriving Repr, DecidableEq

/-- `BenchmarkSuite` (enhanced_data_structures.py, lines 119-129),
restricted to the fields the statistical engine reads. -/
structure BenchmarkSuite where
  suite_name : String
  test_results : List PublicationTestResult
deriving Repr, DecidableEq

/-- One step of building a Python dict-of-lists: append `r` to the list
at key `k`, creating the key at the end on first sight (dicts preserve
insertion order). -/
def addToGroup {K R : Type} [DecidableEq K] :
    List (K × List R) → K → R → List (K × List R)
  | [], k, r => [(k, [r])]
  | (k', rs) :: t, k, r =>
    if k' = k then (k', rs ++ [r]) :: t else (k', rs) :: addToGroup t k r

/-- A Python `dict` grouping a list by a key function, as in
`_group_results` and `_group_by_reasoner`. -/
def groupBy {K R : Type} [DecidableEq K] (key : R → K) (results : List R) :
    List (K × List R) :=
  results.foldl (fun acc r => addToGroup acc (key r) r) []

/-- Reading a dict-of-lists: the list at key `k`, empty when absent. -/
def lookupG {K R : Type} [DecidableEq K] (l : List (K × List R)) (k : K) :
    List R :=
  (((l.find? (fun p => p.1 = k)).map Prod.snd).getD [])

/-- One step of building a two-level Python dict of lists
(`operation_groups` in `_significance_testing`, `scale_groups` in
`_scalability_analysis`). -/
def addToGroup2 {K1 K2 R : Type} [DecidableEq K1] [DecidableEq K2] :
    List (K1 × List (K2 × List R)) → K1 → K2 → R →
      List (K1 × List (K2 × List R))
  | [], k1, k2, r => [(k1, [(k2, [r])])]
  | (k', m) :: tl, k1, k2, r =>
    if k' = k1 then (k', addToGroup m k2 r) :: tl
    else (k', m) :: addToGroup2 tl k1 k2 r

/-- Whether an observation enters the statistical samples:
`r.success and not r.timeout_occurred`. -/
def obsOK (r : PublicationTestResult) : Bool :=
  r.success && !r.timeout_occurred

/-- `_group_results` (lines 572-580): group by (reasoner, operation). -/
def group_results (results : List PublicationTestResult) :
    List ((String × String) × List PublicationTestResult) :=
  groupBy (fun r => (r.reasoner_name, r.test_operation)) results

/-- `_group_by_reasoner` (lines 582-589). -/
def group_by_reasoner (results : List PublicationTestResult) :
    List (String × List PublicationTestResult) :=
  groupBy (fun r => r.reasoner_name) results

/-- The `operation_groups` map of `_significance_testing` (lines 166-174):
operation -> reasoner -> execution times, restricted to successful,
non-timed-out observations. -/
def operationGroups (results : List PublicationTestResult) :
    List (String × List (String × List ℚ)) :=
  results.foldl
    (fun acc r =>
      if obsOK r then
        addToGroup2 acc r.test_operation r.reasoner_name r.execution_time_ms
      else acc) []

/-- The ordered pairs `(l[i], l[j])` with `i < j`, in the order the nested
loops of `_significance_testing` (lines 180-182) visit them. -/
def pairsOf {α : Type} : List α → List (α × α)
  | [] => []
  | x :: xs => xs.map (fun y => (x, y)) ++ pairsOf xs

/-- `_significance_testing` (lines 160-193): for each operation, every
pair of reasoners measured on it is tested when both sides have at least 3
observations; pairs failing the minimum sample size are not recorded. -/
def significance_testing (lib : StatsLib) (significance_level : ℚ)
    (suite : BenchmarkSuite) :
    List (String × List (String × StatisticalResult)) :=
  (operationGroups suite.test_results).map (fun og =>
    (og.1, (pairsOf og.2).filterMap (fun pr =>
      if 3 ≤ pr.1.2.length ∧ 3 ≤ pr.2.2.length then
        some (pr.1.1 ++ "_vs_" ++ pr.2.1 ++ "_" ++ og.1,
          perform_statistical_test lib significance_level pr.1.2 pr.2.2
            pr.1.1 pr.2.1 og.1)
      else none)))

/-- `mapM` over `Except`, written recursively so its equations mirror a
Python list comprehension: elements are evaluated left to right and the
first exception aborts the whole comprehension. -/
def mapExcept {α β : Type} (f : α → Except String β) :
    List α → Except String (List β)
  | [] => Except.ok []
  | x :: xs => do
    let y ← f x
    let ys ← mapExcept f xs
    pure (y :: ys)

/-- Minimum of a list (Python `min`); the engine only calls it on
non-empty lists. -/
def listMin : List ℚ → ℚ
  | [] => 0
  | x :: xs => xs.foldl min x

/-- Maximum of a list (Python `max`); the engine only calls it on
non-empty lists. -/
def listMax : List ℚ → ℚ
  | [] => 0
  | x :: xs => xs.foldl max x

/-- The `summary` block of `_basic_statistical_analysis` (lines 91-99);
the timeout and success rates divide by the number of test results, so an
empty suite raises `ZeroDivisionError`. -/
structure BasicSummary where
  total_tests : ℕ
  successful_tests : ℕ
  failed_tests : ℕ
  timeout_rate : ℚ
  overall_success_rate : ℚ
deriving Repr, DecidableEq

/-- Computation of the `summary` block (lines 91-99): `Except.error` is
the `ZeroDivisionError` Python raises when `test_results` is empty. -/
def basicSummary (suite : BenchmarkSuite) : Except String BasicSummary :=
  let n := suite.test_results.length
  if n = 0 then Except.error "ZeroDivisionError"
  else Except.ok
    { total_tests := n
      successful_tests := (suite.test_results.filter (fun r => r.success)).length
      failed_tests := (suite.test_results.filter (fun r => !r.success)).length
      timeout_rate :=
        ((suite.test_results.filter (fun r => r.timeout_occurred)).length : ℚ)
          / n * 100
      overall_success_rate :=
        ((suite.test_results.filter (fun r => r.success)).length : ℚ) / n * 100 }

/-- The per-group statistics dict of `_basic_statistical_analysis`
(lines 110-123). -/
structure GroupStats where
  count : ℕ
  mean_ms : ℚ
  median_ms : ℚ
  std_dev_ms : ℚ
  min_ms : ℚ
  max_ms : ℚ
  range_ms : ℚ
  coefficient_of_variation : ℚ
  percentile_25 : ℚ
  percentile_75 : ℚ
  iqr : ℚ
deriving Repr, DecidableEq

/-- The `memory_stats` sub-dict (lines 128-134). -/
structure MemoryStats where
  mean_peak_memory_mb : ℚ
  std_dev_memory_mb : ℚ
  min_memory_mb : ℚ
  max_memory_mb : ℚ
deriving Repr, DecidableEq

/-- Per-group statistics (lines 110-123) for a non-empty list of
execution times; the coefficient of variation divides by the mean with no
guard, so a zero mean with at least two samples raises
`ZeroDivisionError`. -/
def groupStats (lib : StatsLib) (times : List ℚ) : Except String GroupStats :=
  if times.length > 1 ∧ mean times = 0 then Except.error "ZeroDivisionError"
  else Except.ok
    { count := times.length
      mean_ms := mean times
      median_ms := median times
      std_dev_ms := if times.length > 1 then sampleStdev lib times else 0
      min_ms := listMin times
      max_ms := listMax times
      range_ms := listMax times - listMin times
      coefficient_of_variation :=
        if times.length > 1 then sampleStdev lib times / mean times else 0
      percentile_25 := percentileNp times 25
      percentile_75 := percentileNp times 75
      iqr := percentileNp times 75 - percentileNp times 25 }

/-- The peak-memory figures of the observations carrying memory metrics. -/
def peakMemories (rs : List PublicationTestResult) : List ℚ :=
  (rs.filter (fun r => r.memory_metrics.isSome)).filterMap
    (fun r => (r.memory_metrics.map (fun m => m.peak_memory_mb)))

/-- The optional `memory_stats` sub-dict (lines 126-134). -/
def memoryStats (lib : StatsLib) (rs : List PublicationTestResult) :
    Option MemoryStats :=
  let peaks := peakMemories rs
  if peaks.isEmpty then none
  else some
    { mean_peak_memory_mb := mean peaks
      std_dev_memory_mb := if peaks.length > 1 then sampleStdev lib peaks else 0
      min_memory_mb := listMin peaks
      max_memory_mb := listMax peaks }

/-- One per-group entry of `_basic_statistical_analysis`. -/
structure BasicGroupEntry where
  key : String × String
  stats : GroupStats
  memory_stats : Option MemoryStats
deriving Repr, DecidableEq

/-- The per-group part of `_basic_statistical_analysis` (lines 101-134),
walking the groups in insertion order; the first `ZeroDivisionError`
propagates. -/
def basicGroupEntries (lib : StatsLib) :
    List ((String × String) × List PublicationTestResult) →
      Except String (List BasicGroupEntry)
  | [] => Except.ok []
  | (k, rs) :: t => do
    let srs := rs.filter obsOK
    if srs.isEmpty then basicGroupEntries lib t
    else do
      let gs ← groupStats lib (srs.map (fun r => r.execution_time_ms))
      let rest ← basicGroupEntries lib t
      pure (⟨k, gs, memoryStats lib srs⟩ :: rest)

/-- `_basic_statistical_analysis` (lines 87-136): suite summary plus the
per-(reasoner, operation) statistics of the successful, non-timed-out
observations. -/
def basic_statistical_analysis (lib : StatsLib) (suite : BenchmarkSuite) :
    Except String (BasicSummary × List BasicGroupEntry) := do
  let summary ← basicSummary suite
  let entries ← basicGroupEntries lib (group_results suite.test_results)
  pure (summary, entries)

/-- `_calculate_complexity_exponent` (lines 712-737), parameterized over
the `math.log` model: fewer than 2 pairs yield the default
`(exponent, r_squared) = (1, 0)`; otherwise a log-log ordinary least
squares fit.  `math.log` of a non-positive number raises a math domain
error, and the slope denominator vanishes (raising `ZeroDivisionError`)
exactly when all log-scales coincide; neither situation is filtered by
the code. -/
def calculate_complexity_exponent (log : ℚ → ℚ)
    (scale_data : List (ℚ × ℚ)) : Except String (ℚ × ℚ) :=
  if scale_data.length < 2 then Except.ok (1, 0)
  else do
    let log_scales ← mapExcept (fun p =>
      if p.1 ≤ 0 then Except.error "math domain error" else Except.ok (log p.1))
      scale_data
    let log_values ← mapExcept (fun p =>
      if p.2 ≤ 0 then Except.error "math domain error" else Except.ok (log p.2))
      scale_data
    let n : ℚ := log_scales.length
    let sum_x := log_scales.sum
    let sum_y := log_values.sum
    let sum_xy := ((log_scales.zip log_values).map (fun p => p.1 * p.2)).sum
    let sum_x2 := (log_scales.map (fun x => x * x)).sum
    if n * sum_x2 - sum_x * sum_x = 0 then Except.error "ZeroDivisionError"
    else
      let slope := (n * sum_xy - sum_x * sum_y) / (n * sum_x2 - sum_x * sum_x)
      let intercept := (sum_y - slope * sum_x) / n
      let y_mean := sum_y / n
      let ss_tot := (log_values.map (fun y => (y - y_mean) ^ 2)).sum
      let ss_res := ((log_scales.zip log_values).map
        (fun p => (p.2 - (slope * p.1 + intercept)) ^ 2)).sum
      let r_squared := if ss_tot > 0 then 1 - ss_res / ss_tot else 0
      Except.ok (slope, r_squared)

/-- One breakpoint record of `_analyze_breakpoints` (lines 755-760). -/
structure Breakpoint where
  scale : ℚ
  time : ℚ
  degradation_factor : ℚ
  severity : String
deriving Repr, DecidableEq

/-- The consecutive walk of `_analyze_breakpoints` (lines 745-760):
divisions by `time1` and by `scale1` (and by the scale increase inside the
flagged branch) raise `ZeroDivisionError` when the denominator is zero. -/
def breakpointsWalk : List (ℚ × ℚ) → Except String (List Breakpoint)
  | [] => Except.ok []
  | [_] => Except.ok []
  | (s1, t1) :: (s2, t2) :: rest =>
    if t1 = 0 ∨ s1 = 0 then Except.error "ZeroDivisionError"
    else
      let time_increase := (t2 - t1) / t1 * 100
      let scale_increase := (s2 - s1) / s1 * 100
      if time_increase > scale_increase * 2 then
        if scale_increase = 0 then Except.error "ZeroDivisionError"
        else do
          let rest' ← breakpointsWalk ((s2, t2) :: rest)
          pure ({ scale := s2, time := t2
                  degradation_factor := time_increase / scale_increase
                  severity := if time_increase > scale_increase * 3 then "high"
                    else "moderate" } :: rest')
      else breakpointsWalk ((s2, t2) :: rest)

/-- `_analyze_breakpoints` (lines 739-765): fewer than 3 points yield no
breakpoints. -/
def analyze_breakpoints (scale_performance : List (ℚ × ℚ)) :
    Except String (List Breakpoint) :=
  if scale_performance.length < 3 then Except.ok []
  else breakpointsWalk scale_performance

/-- One per-reasoner entry of `_scalability_analysis` (lines 422-431). -/
structure ScalabilityEntry where
  reasoner : String
  time_complexity : ℚ × ℚ
  memory_complexity : ℚ × ℚ
  time_scalability_score : ℚ
  memory_scalability_score : ℚ
  overall_scalability_score : ℚ
  scale_vs_time : List (ℚ × ℚ)
  scale_vs_memory : List (ℚ × ℚ)
  breakpoint_analysis : List Breakpoint
deriving Repr, DecidableEq

/-- The `scale_groups` map of `_scalability_analysis` (lines 383-391):
triples count -> reasoner -> observations, restricted to successful,
non-timed-out observations. -/
def scaleGroups (results : List PublicationTestResult) :
    List (ℤ × List (String × List PublicationTestResult)) :=
  results.foldl
    (fun acc r =>
      if obsOK r then addToGroup2 acc r.triples_count r.reasoner_name r
      else acc) []

/-- The `(scale, mean execution time)` points of one reasoner
(lines 399-407). -/
def scalePerformance (groups : List (ℤ × List (String × List PublicationTestResult)))
    (reasoner : String) : List (ℚ × ℚ) :=
  groups.filterMap (fun sg =>
    let rs := lookupG sg.2 reasoner
    if rs.isEmpty then none
    else some ((sg.1 : ℚ), mean (rs.map (fun r => r.execution_time_ms))))

/-- The `(scale, mean peak memory)` points of one reasoner
(lines 409-412). -/
def scaleMemory (groups : List (ℤ × List (String × List PublicationTestResult)))
    (reasoner : String) : List (ℚ × ℚ) :=
  groups.filterMap (fun sg =>
    let rs := lookupG sg.2 reasoner
    if rs.isEmpty then none
    else
      let peaks := peakMemories rs
      if peaks.isEmpty then none else some ((sg.1 : ℚ), mean peaks))

/-- One reasoner's scalability entry (lines 398-431). -/
def scalabilityEntry (lib : StatsLib)
    (groups : List (ℤ × List (String × List PublicationTestResult)))
    (reasoner : String) : Except String ScalabilityEntry := do
  let sp := scalePerformance groups reasoner
  let sm := scaleMemory groups reasoner
  let time_complexity ← calculate_complexity_exponent lib.logQ sp
  let memory_complexity ← calculate_complexity_exponent lib.logQ sm
  let time_scalability := max 0 (1 - (time_complexity.1 - 1) / 2)
  let memory_scalability := max 0 (1 - (memory_complexity.1 - 1) / 2)
  let bps ← analyze_breakpoints sp
  pure
    { reasoner := reasoner
      time_complexity := time_complexity
      memory_complexity := memory_complexity
      time_scalability_score := time_scalability
      memory_scalability_score := memory_scalability
      overall_scalability_score := (time_scalability + memory_scalability) / 2
      scale_vs_time := sp
      scale_vs_memory := sm
      breakpoint_analysis := bps }

/-- `_scalability_analysis` (lines 376-433): one entry per reasoner name
occurring in the scale groups (the Python `set` is modelled as the
deduplicated first-appearance list; each entry only depends on its own
reasoner). -/
def scalability_analysis (lib : StatsLib) (suite : BenchmarkSuite) :
    Except String (List ScalabilityEntry) :=
  let groups := scaleGroups suite.test_results
  let names := ((groups.map (fun sg => sg.2.map Prod.fst)).flatten).dedup
  names.mapM (scalabilityEntry lib groups)

/-- `PerformanceProfile` (statistical_analysis_engine.py, lines 42-55). -/
structure PerformanceProfile where
  reasoner_name : String
  mean_performance : ℚ
  median_performance : ℚ
  std_deviation : ℚ
  coefficient_of_variation : ℚ
  performance_range : ℚ × ℚ
  outlier_count : ℕ
  reliability_score : ℚ
  efficiency_score : ℚ
  overall_score : ℚ
  rank : ℕ
deriving Repr, DecidableEq

/-- The per-observation efficiency figure of `_performance_profiling`
(lines 292-297), only produced for observations carrying memory metrics
and a positive triples count; divisions by the peak memory and by the
execution time raise `ZeroDivisionError` when these are zero. -/
def efficiencyScores :
    List PublicationTestResult → Except String (List ℚ)
  | [] => Except.ok []
  | r :: t =>
    match r.memory_metrics with
    | some m =>
      if r.triples_count > 0 then
        if m.peak_memory_mb = 0 ∨ r.execution_time_ms = 0 then
          Except.error "ZeroDivisionError"
        else do
          let mem_efficiency := (r.triples_count : ℚ) / m.peak_memory_mb
          let time_efficiency :=
            (r.triples_count : ℚ) / (r.execution_time_ms / 1000)
          let rest ← efficiencyScores t
          pure ((mem_efficiency + time_efficiency) / 2 :: rest)
      else efficiencyScores t
    | none => efficiencyScores t

/-- One reasoner's profile before rank assignment (lines 266-320);
`results` is the reasoner's full group, from which the successful,
non-timed-out observations are taken. -/
def performanceProfileOf (lib : StatsLib) (reasoner : String)
    (results : List PublicationTestResult) :
    Except String (Option PerformanceProfile) := do
  let successful := results.filter obsOK
  if successful.isEmpty then pure none
  else do
    let times := successful.map (fun r => r.execution_time_ms)
    let mean_perf := mean times
    let std_dev := if times.length > 1 then sampleStdev lib times else 0
    let cv := if mean_perf > 0 then std_dev / mean_perf else 0
    let q1 := percentileNp times 25
    let q3 := percentileNp times 75
    let iqr := q3 - q1
    let lower_bound := q1 - 3 / 2 * iqr
    let upper_bound := q3 + 3 / 2 * iqr
    let outliers := times.filter (fun t => t < lower_bound ∨ t > upper_bound)
    let reliability_score : ℚ := (successful.length : ℚ) / (results.length : ℚ)
    let effs ← efficiencyScores successful
    let efficiency_score := if effs.isEmpty then 0 else mean effs
    let overall_score := 1 / (mean_perf + 1) * (2 / 5) +
      efficiency_score * (3 / 10) + reliability_score * (3 / 10)
    pure (some
      { reasoner_name := reasoner
        mean_performance := mean_perf
        median_performance := median times
        std_deviation := std_dev
        coefficient_of_variation := cv
        performance_range := (listMin times, listMax times)
        outlier_count := outliers.length
        reliability_score := reliability_score
        efficiency_score := efficiency_score
        overall_score := overall_score
        rank := 0 })

/-- Descending order on overall score, the key of the stable
`sorted(..., key=lambda x: x.overall_score, reverse=True)` call on
line 323. -/
def profGE (a b : PerformanceProfile) : Prop :=
  b.overall_score ≤ a.overall_score

instance : DecidableRel profGE := fun a b =>
  inferInstanceAs (Decidable (b.overall_score ≤ a.overall_score))

instance : IsTotal PerformanceProfile profGE :=
  ⟨fun a b => le_total b.overall_score a.overall_score⟩

instance : IsTrans PerformanceProfile profGE :=
  ⟨fun _ _ _ h1 h2 => le_trans h2 h1⟩

/-- The rank assignment of `_performance_profiling` (lines 322-326):
profiles sorted by descending overall score with Python's stable sort
(no further tie-break), then numbered from 1. -/
def assign_ranks (profiles : List PerformanceProfile) :
    List PerformanceProfile :=
  (List.insertionSort profGE profiles).enum.map
    (fun p => { p.2 with rank := p.1 + 1 })

/-- `_performance_profiling` (lines 259-328): build the per-reasoner
profiles in grouping order, then assign ranks by descending overall
score. -/
def performance_profiling (lib : StatsLib) (suite : BenchmarkSuite) :
    Except String (List PerformanceProfile) := do
  let groups := group_by_reasoner suite.test_results
  let profiles ← groups.filterMapM (fun g => performanceProfileOf lib g.1 g.2)
  pure (assign_ranks profiles)

/-- One outlier record of `_outlier_analysis` (lines 460-469); the
`test_result` field holds the flagged observation. -/
structure OutlierEntry where
  index : ℕ
  execution_time_ms : ℚ
  deviation_from_median : ℚ
  severity : String
  test_result : PublicationTestResult
deriving Repr, DecidableEq

instance : Inhabited PublicationTestResult :=
  ⟨{ reasoner_name := "", test_operation := "", success := false,
     execution_time_ms := 0, timeout_occurred := false, triples_count := 0,
     memory_metrics := none }⟩

/-- The outlier records of one group (lines 455-469): an observation is
flagged exactly when its time is strictly below `q1 - 1.5*iqr` or
strictly above `q3 + 1.5*iqr`. -/
def outlierEntries (times : List ℚ) (srs : List PublicationTestResult) :
    List OutlierEntry :=
  let q1 := percentileNp times 25
  let q3 := percentileNp times 75
  let iqr := q3 - q1
  let lower_bound := q1 - 3 / 2 * iqr
  let upper_bound := q3 + 3 / 2 * iqr
  times.enum.filterMap (fun it =>
    if it.2 < lower_bound ∨ it.2 > upper_bound then
      some
        { index := it.1
          execution_time_ms := it.2
          deviation_from_median := |it.2 - median times|
          severity :=
            if it.2 < lower_bound * (1 / 2) ∨ it.2 > upper_bound * (3 / 2)
            then "mild" else "moderate"
          test_result := srs.getD it.1 default }
    else none)

/-- One group's report of `_outlier_analysis` (lines 470-484). -/
structure OutlierReport where
  key : String × String
  total_tests : ℕ
  outlier_count : ℕ
  outlier_rate : ℚ
  outliers : List OutlierEntry
  lower_bound : ℚ
  upper_bound : ℚ
  q1 : ℚ
  q3 : ℚ
  iqr : ℚ
deriving Repr, DecidableEq

/-- `_outlier_analysis` (lines 435-486): IQR-based flagging per
(reasoner, operation) group, only for groups with at least 4 successful,
non-timed-out observations. -/
def outlier_analysis (suite : BenchmarkSuite) : List OutlierReport :=
  (group_results suite.test_results).filterMap (fun g =>
    let srs := g.2.filter obsOK
    if 4 ≤ srs.length then
      let times := srs.map (fun r => r.execution_time_ms)
      let q1 := percentileNp times 25
      let q3 := percentileNp times 75
      let iqr := q3 - q1
      let outliers := outlierEntries times srs
      some
        { key := g.1
          total_tests := srs.length
          outlier_count := outliers.length
          outlier_rate := (outliers.length : ℚ) / (srs.length : ℚ) * 100
          outliers := outliers
          lower_bound := q1 - 3 / 2 * iqr
          upper_bound := q3 + 3 / 2 * iqr
          q1 := q1
          q3 := q3
          iqr := iqr }
    else none)

/-- The embedded part of the result bundle of `analyze_benchmark_suite`
(lines 65-85): the statistical components the claims address.  The engine
additionally builds comparative, reliability, correlation and
publication-insight entries, which are not embedded here; each embedded
field keeps its position relative to the others in the Python dict
literal. -/
structure AnalysisBundle where
  basic_statistics : BasicSummary × List BasicGroupEntry
  significance_results : List (String × List (String × StatisticalResult))
  performance_profiles : List PerformanceProfile
  scalability_entries : List ScalabilityEntry
  outlier_reports : List OutlierReport
deriving Repr, DecidableEq

/-- `analyze_benchmark_suite` (lines 65-85), restricted to the embedded
components, evaluated in the order of the Python dict literal; it has no
exception handler, so the first exception of any component propagates to
the caller. -/
def analyze_benchmark_suite (lib : StatsLib) (significance_level : ℚ)
    (suite : BenchmarkSuite) : Except String AnalysisBundle := do
  let basic ← basic_statistical_analysis lib suite
  let sig := significance_testing lib significance_level suite
  let profiles ← performance_profiling lib suite
  let scal ← scalability_analysis lib suite
  pure
    { basic_statistics := basic
      significance_results := sig
      performance_profiles := profiles
      scalability_entries := scal
      outlier_reports := outlier_analysis suite }

/-- A square root on rationals, exact on perfect squares; a computable
stand-in for `math.sqrt` used to evaluate closed instances (every general
theorem quantifies over the square-root model instead). -/
def ratSqrt (q : ℚ) : ℚ := (Nat.sqrt q.num.toNat : ℚ) / (Nat.sqrt q.den : ℚ)

/-- A concrete instantiation of the external-library model used to
evaluate closed instances: constant p-values, `ratSqrt` for `math.sqrt`
and the constant zero for `math.log` (theorems whose content depends on
logarithm or p-values quantify over the model instead). -/
def statsLibModel : StatsLib where
  shapiroP _ := Except.ok (1 / 2)
  leveneP _ := Except.ok (1 / 2)
  tSF _ _ := 1 / 10
  mannP _ _ := Except.ok (1 / 10)
  tPPF _ := 2
  sqrtQ := ratSqrt
  logQ _ := 0

/-- Reading a two-level dict of lists: the list under keys `k1, k2`,
empty when either key is absent. -/
def lookupG2 {K1 K2 R : Type} [DecidableEq K1] [DecidableEq K2]
    (l : List (K1 × List (K2 × List R))) (k1 : K1) (k2 : K2) : List R :=
  lookupG ((((l.find? (fun p => p.1 = k1)).map Prod.snd).getD [])) k2

/-- Uniform-threshold normality decision, modelled from the spec words
for the refutation of uniform-threshold application: under a single
significance level `s` applied to all three decisions, a group with
Shapiro-Wilk p-value `p` would be classified normal exactly when
`p > s`. -/
def specUniformNormality (s p : ℚ) : Bool := decide (p > s)

/-- A successful, non-timed-out observation, used to build concrete
suites for closed instances. -/
def mkObs (name op : String) (t : ℚ) : PublicationTestResult :=
  { reasoner_name := name, test_operation := op, success := true,
    execution_time_ms := t, timeout_occurred := false, triples_count := 100,
    memory_metrics := none }

/-- The empty benchmark suite. -/
def emptySuite : BenchmarkSuite := { suite_name := "empty", test_results := [] }

/-- A suite in which reasoner R1 has a single successful observation and
reasoner R2 has three, all on the operation "classification". -/
def suiteOneVsThree : BenchmarkSuite :=
  { suite_name := "one-vs-three",
    test_results :=
      [mkObs "R1" "classification" 5,
       mkObs "R2" "classification" 7, mkObs "R2" "classification" 8,
       mkObs "R2" "classification" 9] }

/-- A suite in which reasoners R1 and R2 each have three successful
observations on the operation "classification". -/
def suiteThreeVsThree : BenchmarkSuite :=
  { suite_name := "three-vs-three",
    test_results :=
      [mkObs "R1" "classification" 1, mkObs "R1" "classification" 2,
       mkObs "R1" "classification" 3,
       mkObs "R2" "classification" 4, mkObs "R2" "classification" 5,
       mkObs "R2" "classification" 6] }

/-- A minimal benign suite on which every embedded component succeeds. -/
def suiteBenign : BenchmarkSuite :=
  { suite_name := "benign", test_results := [mkObs "R1" "classification" 5] }

/-- A performance profile carrying only a name and an overall score, for
the ranking scenario. -/
def mkProfile (name : String) (score : ℚ) : PerformanceProfile :=
  { reasoner_name := name, mean_performance := 0, median_performance := 0,
    std_deviation := 0, coefficient_of_variation := 0,
    performance_range := (0, 0), outlier_count := 0, reliability_score := 0,
    efficiency_score := 0, overall_score := score, rank := 0 }

/-- The library model with a Shapiro-Wilk p-value of 0.3: above the
hard-coded 0.05, below a configured significance level of 0.5. -/
def libShapiro03 : StatsLib :=
  { statsLibModel with shapiroP := fun _ => Except.ok (3 / 10) }

/-- A library model on which the Mann-Whitney call raises (as scipy does
on degenerate data) and every group is classified non-normal. -/
def libMannError : StatsLib :=
  { statsLibModel with
    shapiroP := fun _ => Except.ok 0
    mannP := fun _ _ => Except.error () }

/-- A placeholder statistical result, used as a `getD` default when a
closed statement reads an entry off a computed list. -/
def dummyStat : StatisticalResult :=
  { test_name := "", test_type := "", statistic := 0, p_value := 0,
    effect_size := 0, confidence_interval := (0, 0), interpretation := "",
    significance_level := 0 }

/-- Extract the value of a successful `Except` computation, with a
default for the error case; used by closed statements to name the
components of a computed bundle. -/
def exOk {α : Type} (d : α) : Except String α → α
  | Except.ok v => v
  | Except.error _ => d

/-- A placeholder suite summary, used as a `exOk` default. -/
def dummySummary : BasicSummary :=
  { total_tests := 0, successful_tests := 0, failed_tests := 0,
    timeout_rate := 0, overall_success_rate := 0 }

theorem except_map_ok {α β : Type} {f : α → β} {m : Except Unit α} {b : β}
    (h : f <$> m = Except.ok b) : ∃ a, m = Except.ok a ∧ b = f a := by
  cases m with
  | ok a =>
    refine ⟨a, rfl, ?_⟩
    injection h with h'
    exact h'.symm
  | error e => exact Except.noConfusion h

theorem runChosenTest_ok_type (lib : StatsLib) (d1 d2 : List ℚ)
    (ty : String) (st p : ℚ)
    (h : runChosenTest lib d1 d2 = Except.ok (ty, st, p)) :
    ty = chooseTestType lib d1 d2 := by
  unfold runChosenTest at h
  unfold chooseTestType
  split_ifs at h ⊢ with hc1 hc2
  · injection h with h'
    exact (congrArg Prod.fst h').symm
  · injection h with h'
    exact (congrArg Prod.fst h').symm
  · unfold mannwhitneyuTwoSided at h
    obtain ⟨a, hma, hba⟩ := except_map_ok h
    exact congrArg Prod.fst hba

/-- C2: for every pairwise comparison where both groups have at least 3
successful observations, the test chosen is the independent two-sample
t-test exactly when both groups are classified normal and the variances
are classified equal; Welch's t-test exactly when both groups are
classified normal and the variances are classified unequal; the
two-sided Mann-Whitney U test exactly when either group is classified
non-normal; no other choice is possible, and a test run that completes
records exactly the chosen type. -/
theorem C2_test_selection (lib : StatsLib) (d1 d2 : List ℚ)
    (h1 : 3 ≤ d1.length) (h2 : 3 ≤ d2.length) :
    (chooseTestType lib d1 d2 = "Independent t-test" ↔
      (check_normality lib d1 ∧ check_normality lib d2 ∧
        check_equal_variance lib d1 d2)) ∧
    (chooseTestType lib d1 d2 = "Welch's t-test" ↔
      (check_normality lib d1 ∧ check_normality lib d2 ∧
        ¬ check_equal_variance lib d1 d2)) ∧
    (chooseTestType lib d1 d2 = "Mann-Whitney U test" ↔
      ¬ (check_normality lib d1 ∧ check_normality lib d2)) ∧
    (∀ ty st p, runChosenTest lib d1 d2 = Except.ok (ty, st, p) →
      ty = chooseTestType lib d1 d2) := by
  refine ⟨?_, ?_, ?_, fun ty st p h => runChosenTest_ok_type lib d1 d2 ty st p h⟩ <;>
    unfold chooseTestType <;>
    cases hn1 : check_normality lib d1 <;>
      cases hn2 : check_normality lib d2 <;>
        cases hv : check_equal_variance lib d1 d2 <;>
          simp

/-- Witness for C2 at a concrete library model and concrete groups of
three observations each. -/
theorem C2_test_selection_witness :
    (chooseTestType statsLibModel [1, 2, 3] [4, 5, 6] = "Independent t-test" ↔
      (check_normality statsLibModel [1, 2, 3] ∧
        check_normality statsLibModel [4, 5, 6] ∧
        check_equal_variance statsLibModel [1, 2, 3] [4, 5, 6])) ∧
    (chooseTestType statsLibModel [1, 2, 3] [4, 5, 6] = "Welch's t-test" ↔
      (check_normality statsLibModel [1, 2, 3] ∧
        check_normality statsLibModel [4, 5, 6] ∧
        ¬ check_equal_variance statsLibModel [1, 2, 3] [4, 5, 6])) ∧
    (chooseTestType statsLibModel [1, 2, 3] [4, 5, 6] = "Mann-Whitney U test" ↔
      ¬ (check_normality statsLibModel [1, 2, 3] ∧
        check_normality statsLibModel [4, 5, 6])) ∧
    (∀ ty st p,
      runChosenTest statsLibModel [1, 2, 3] [4, 5, 6] = Except.ok (ty, st, p) →
        ty = chooseTestType statsLibModel [1, 2, 3] [4, 5, 6]) :=
  C2_test_selection statsLibModel [1, 2, 3] [4, 5, 6] (by decide) (by decide)

/-- C4 counterexample: with a configured significance level of 0.5 and a
Shapiro-Wilk p-value of 0.3 on a three-element group, the code classifies
the group as normal (it compares against the hard-coded 0.05), while the
claimed uniform application of the configured threshold would classify it
as non-normal (0.3 is not above 0.5): the configured level is not the
threshold used by the normality decision. -/
theorem C4_counterexample :
    check_normality libShapiro03 [1, 2, 3] = true ∧
    specUniformNormality (1 / 2) (3 / 10) = false :=
  of_decide_eq_true (by with_unfolding_all rfl)

/-- C4 (amended): the per-group normality classification and the
variance-homogeneity classification use the hard-coded threshold 0.05
regardless of the configured significance level, while the
hypothesis-test significance decision does use the configured level: the
recorded interpretation reports a significant difference exactly when
`p_value < significance_level`. -/
theorem C4_threshold_use (lib : StatsLib) (s : ℚ) (d d1 d2 : List ℚ)
    (p q : ℚ) (hp : lib.shapiroP d = Except.ok p)
    (hq : lib.leveneP {d1, d2} = Except.ok q) (r1 r2 op : String) :
    (check_normality lib d = true ↔ (3 ≤ d.length ∧ p > 1 / 20)) ∧
    (check_equal_variance lib d1 d2 = true ↔
      (d1.length < 3 ∨ d2.length < 3 ∨ q > 1 / 20)) ∧
    (∀ ty st pv, runChosenTest lib d1 d2 = Except.ok (ty, st, pv) →
      (perform_statistical_test lib s d1 d2 r1 r2 op).interpretation =
        (if pv < s then
          r1 ++ " is significantly " ++
            (if mean d1 - mean d2 < 0 then "faster" else "slower") ++
            " than " ++ r2 ++ " for " ++ op
        else "No significant difference between " ++ r1 ++ " and " ++
          r2 ++ " for " ++ op)) := by
  refine ⟨?_, ?_, ?_⟩
  · unfold check_normality
    rw [hp]
    split_ifs with hl
    · simp only [Bool.false_eq_true, false_iff, not_and]
      intro h3
      omega
    · simp only [decide_eq_true_eq, iff_and_self]
      intro _
      omega
  · unfold check_equal_variance
    split_ifs with hl
    · simp only [true_iff]
      rcases hl with hl | hl
      · exact Or.inl hl
      · exact Or.inr (Or.inl hl)
    · rw [hq]
      push_neg at hl
      simp only [decide_eq_true_eq]
      constructor
      · exact fun h => Or.inr (Or.inr h)
      · rintro (h | h | h)
        · omega
        · omega
        · exact h
  · intro ty st pv h
    unfold perform_statistical_test
    rw [h]

/-- Witness for C4 at the concrete library model with Shapiro-Wilk
p-value 0.3, configured significance level 0.5 and concrete groups. -/
theorem C4_threshold_use_witness :
    (check_normality libShapiro03 [1, 2, 3] = true ↔
      (3 ≤ ([1, 2, 3] : List ℚ).length ∧ (3 : ℚ) / 10 > 1 / 20)) ∧
    (check_equal_variance libShapiro03 [1, 2, 3] [4, 5, 6] = true ↔
      (([1, 2, 3] : List ℚ).length < 3 ∨ ([4, 5, 6] : List ℚ).length < 3 ∨
        (1 : ℚ) / 2 > 1 / 20)) ∧
    (perform_statistical_test libShapiro03 (1 / 2) [1, 2, 3] [4, 5, 6]
        "R1" "R2" "classification").interpretation =
      (if (1 : ℚ) / 5 < 1 / 2 then
        "R1" ++ " is significantly " ++
          (if mean [1, 2, 3] - mean [4, 5, 6] < 0 then "faster" else "slower")
          ++ " than " ++ "R2" ++ " for " ++ "classification"
      else "No significant difference between " ++ "R1" ++ " and " ++
        "R2" ++ " for " ++ "classification") :=
  ⟨(C4_threshold_use libShapiro03 (1 / 2) [1, 2, 3] [1, 2, 3] [4, 5, 6]
      (3 / 10) (1 / 2) rfl rfl "R1" "R2" "classification").1,
   (C4_threshold_use libShapiro03 (1 / 2) [1, 2, 3] [1, 2, 3] [4, 5, 6]
      (3 / 10) (1 / 2) rfl rfl "R1" "R2" "classification").2.1,
   (C4_threshold_use libShapiro03 (1 / 2) [1, 2, 3] [1, 2, 3] [4, 5, 6]
      (3 / 10) (1 / 2) rfl rfl "R1" "R2" "classification").2.2
     "Independent t-test" (-3) (1 / 5) (by with_unfolding_all rfl)⟩

/-- C7 counterexample: for overall scores `[0.9, 0.9, 0.7]` belonging to
systems `[B, A, C]` in input order, the rank assignment of
`_performance_profiling` leaves B above A (Python's stable sort keeps
input order on ties; there is no tie-break by system name), so A is not
ranked above B as the claim states. -/
theorem C7_counterexample :
    (assign_ranks
        [mkProfile "B" (9 / 10), mkProfile "A" (9 / 10),
         mkProfile "C" (7 / 10)]).map (fun p => (p.reasoner_name, p.rank)) =
      [("B", 1), ("A", 2), ("C", 3)] :=
  of_decide_eq_true (by with_unfolding_all rfl)

theorem assign_ranks_map (ps : List PerformanceProfile) {α : Type}
    (f : PerformanceProfile → α) (hf : ∀ p n, f { p with rank := n } = f p) :
    (assign_ranks ps).map f = (List.insertionSort profGE ps).map f := by
  unfold assign_ranks
  rw [List.map_map]
  have h1 : (f ∘ fun p : ℕ × PerformanceProfile =>
      { p.2 with rank := p.1 + 1 }) = (fun p => f p.2) := by
    funext p
    exact hf p.2 (p.1 + 1)
  rw [h1]
  have h2 : (fun p : ℕ × PerformanceProfile => f p.2) = f ∘ Prod.snd := rfl
  rw [h2, ← List.map_map, List.enum_map_snd]

/-- C7 (amended): the ranking of `_performance_profiling` orders the
profiles by non-increasing overall score, as a permutation of the input
profiles; ties are kept in input order by Python's stable sort (an input
already in descending-score order, ties included, is returned unchanged)
rather than being broken by system name — in particular, for overall
scores `[0.9, 0.9, 0.7]` of systems `[B, A, C]` in input order, B is
ranked above A. -/
theorem C7_stable_ranking (ps : List PerformanceProfile) :
    ((assign_ranks ps).map (fun p => p.overall_score)).Sorted (· ≥ ·) ∧
    ((assign_ranks ps).map (fun p => p.reasoner_name)).Perm
      (ps.map (fun p => p.reasoner_name)) ∧
    (List.Sorted profGE ps →
      (assign_ranks ps).map (fun p => p.reasoner_name) =
        ps.map (fun p => p.reasoner_name)) := by
  refine ⟨?_, ?_, ?_⟩
  · rw [assign_ranks_map ps (fun p => p.overall_score) (fun _ _ => rfl)]
    exact List.Pairwise.map _ (fun {a b} h => h)
      (List.sorted_insertionSort profGE ps)
  · rw [assign_ranks_map ps (fun p => p.reasoner_name) (fun _ _ => rfl)]
    exact (List.perm_insertionSort profGE ps).map _
  · intro hs
    rw [assign_ranks_map ps (fun p => p.reasoner_name) (fun _ _ => rfl),
      hs.insertionSort_eq]

/-- Witness for C7 at the concrete scenario-E profiles. -/
theorem C7_stable_ranking_witness :
    ((assign_ranks
        [mkProfile "B" (9 / 10), mkProfile "A" (9 / 10),
         mkProfile "C" (7 / 10)]).map (fun p => p.overall_score)).Sorted
      (· ≥ ·) ∧
    ((assign_ranks
        [mkProfile "B" (9 / 10), mkProfile "A" (9 / 10),
         mkProfile "C" (7 / 10)]).map (fun p => p.reasoner_name)).Perm
      (([mkProfile "B" (9 / 10), mkProfile "A" (9 / 10),
         mkProfile "C" (7 / 10)]).map (fun p => p.reasoner_name)) ∧
    (assign_ranks
        [mkProfile "B" (9 / 10), mkProfile "A" (9 / 10),
         mkProfile "C" (7 / 10)]).map (fun p => p.reasoner_name) =
      ([mkProfile "B" (9 / 10), mkProfile "A" (9 / 10),
        mkProfile "C" (7 / 10)]).map (fun p => p.reasoner_name) :=
  ⟨(C7_stable_ranking _).1, (C7_stable_ranking _).2.1,
   (C7_stable_ranking
      [mkProfile "B" (9 / 10), mkProfile "A" (9 / 10),
       mkProfile "C" (7 / 10)]).2.2
     (of_decide_eq_true (by with_unfolding_all rfl))⟩

/-- C10: when any exception is raised while computing a pairwise
statistical test, the comparison still yields a result, with test type
"Error", statistic 0, p-value 1, effect size 0 and confidence interval
(0, 0); since the p-value is 1 and the significance level is at most 1,
such a comparison is never reported as statistically significant. -/
theorem C10_error_result (lib : StatsLib) (s : ℚ) (d1 d2 : List ℚ)
    (r1 r2 op : String) (herr : runChosenTest lib d1 d2 = Except.error ())
    (hs : s ≤ 1) :
    (perform_statistical_test lib s d1 d2 r1 r2 op).test_type = "Error" ∧
    (perform_statistical_test lib s d1 d2 r1 r2 op).statistic = 0 ∧
    (perform_statistical_test lib s d1 d2 r1 r2 op).p_value = 1 ∧
    (perform_statistical_test lib s d1 d2 r1 r2 op).effect_size = 0 ∧
    (perform_statistical_test lib s d1 d2 r1 r2 op).confidence_interval =
      (0, 0) ∧
    ¬ ((perform_statistical_test lib s d1 d2 r1 r2 op).p_value < s) := by
  unfold perform_statistical_test
  rw [herr]
  exact ⟨rfl, rfl, rfl, rfl, rfl, not_lt.mpr hs⟩

/-- Witness for C10 at a concrete library model on which the Mann-Whitney
call raises. -/
theorem C10_error_result_witness :
    (perform_statistical_test libMannError (1 / 20) [1, 2, 3] [4, 5, 6]
      "R1" "R2" "classification").test_type = "Error" ∧
    (perform_statistical_test libMannError (1 / 20) [1, 2, 3] [4, 5, 6]
      "R1" "R2" "classification").statistic = 0 ∧
    (perform_statistical_test libMannError (1 / 20) [1, 2, 3] [4, 5, 6]
      "R1" "R2" "classification").p_value = 1 ∧
    (perform_statistical_test libMannError (1 / 20) [1, 2, 3] [4, 5, 6]
      "R1" "R2" "classification").effect_size = 0 ∧
    (perform_statistical_test libMannError (1 / 20) [1, 2, 3] [4, 5, 6]
      "R1" "R2" "classification").confidence_interval = (0, 0) ∧
    ¬ ((perform_statistical_test libMannError (1 / 20) [1, 2, 3] [4, 5, 6]
      "R1" "R2" "classification").p_value < 1 / 20) :=
  C10_error_result libMannError (1 / 20) [1, 2, 3] [4, 5, 6]
    "R1" "R2" "classification" (by with_unfolding_all rfl) (by norm_num)

theorem mapExcept_ok_of_all {α β : Type} (f : α → Except String β)
    (g : α → β) : ∀ l : List α, (∀ a ∈ l, f a = Except.ok (g a)) →
      mapExcept f l = Except.ok (l.map g)
  | [], _ => rfl
  | x :: xs, h => by
    unfold mapExcept
    rw [h x (List.mem_cons_self x xs),
      mapExcept_ok_of_all f g xs (fun a ha => h a (List.mem_cons_of_mem x ha))]
    rfl

theorem mapExcept_error_of_exists {α β : Type} (f : α → Except String β)
    (e : String) : ∀ l : List α,
    (∀ a ∈ l, f a = Except.error e ∨ ∃ b, f a = Except.ok b) →
    (∃ a ∈ l, f a = Except.error e) → mapExcept f l = Except.error e
  | [], _, hex => absurd hex (by simp)
  | x :: xs, hall, hex => by
    unfold mapExcept
    rcases hall x (List.mem_cons_self x xs) with hx | ⟨b, hb⟩
    · rw [hx]
      rfl
    · rw [hb]
      obtain ⟨a, ha, hae⟩ := hex
      rcases List.mem_cons.mp ha with rfl | ha'
      · rw [hb] at hae
        exact Except.noConfusion hae
      · rw [mapExcept_error_of_exists f e xs
          (fun a ha => hall a (List.mem_cons_of_mem x ha)) ⟨a, ha', hae⟩]
        rfl

/-- C5 counterexample: the complexity fit neither excludes non-positive
pairs (a zero scale reaches `math.log` and raises a math domain error)
nor returns the default for two pairs sharing a single distinct scale
point (the slope denominator vanishes and the fit raises
`ZeroDivisionError` instead of returning exponent 1.0, r_squared 0.0). -/
theorem C5_counterexample :
    calculate_complexity_exponent statsLibModel.logQ [(0, 5), (2, 10)] =
        Except.error "math domain error" ∧
      calculate_complexity_exponent statsLibModel.logQ [(1, 10), (1, 20)] =
        Except.error "ZeroDivisionError" := by
  constructor <;> with_unfolding_all rfl

/-- C5 (amended): the complexity fit performs no positivity filtering and
no distinctness check: the default exponent 1.0, r_squared 0.0 is
returned exactly when the input has fewer than 2 pairs (distinct or not);
with at least 2 pairs, a pair with non-positive scale makes the fit fail
with a math domain error instead of being excluded, and positive pairs
all sharing one scale value make it fail with a division-by-zero error
instead of returning the default. -/
theorem C5_complexity_unfiltered (log : ℚ → ℚ) (data : List (ℚ × ℚ))
    (s : ℚ) :
    (data.length < 2 →
      calculate_complexity_exponent log data = Except.ok (1, 0)) ∧
    (2 ≤ data.length → (∃ p ∈ data, p.1 ≤ 0) →
      calculate_complexity_exponent log data =
        Except.error "math domain error") ∧
    (2 ≤ data.length → (∀ p ∈ data, 0 < p.1 ∧ 0 < p.2) →
      (∀ p ∈ data, p.1 = s) →
      calculate_complexity_exponent log data =
        Except.error "ZeroDivisionError") := by
  refine ⟨?_, ?_, ?_⟩
  · intro h
    unfold calculate_complexity_exponent
    rw [if_pos h]
  · intro hlen hex
    unfold calculate_complexity_exponent
    rw [if_neg (by omega)]
    have herr : mapExcept (fun p : ℚ × ℚ =>
        if p.1 ≤ 0 then Except.error "math domain error"
        else Except.ok (log p.1)) data = Except.error "math domain error" := by
      apply mapExcept_error_of_exists
      · intro a _
        split_ifs with h'
        · exact Or.inl rfl
        · exact Or.inr ⟨log a.1, rfl⟩
      · obtain ⟨p, hp, hple⟩ := hex
        exact ⟨p, hp, if_pos hple⟩
    rw [herr]
    rfl
  · intro hlen hpos hsame
    unfold calculate_complexity_exponent
    rw [if_neg (by omega)]
    have hs1 : mapExcept (fun p : ℚ × ℚ =>
        if p.1 ≤ 0 then Except.error "math domain error"
        else Except.ok (log p.1)) data =
        Except.ok (data.map (fun p => log p.1)) := by
      apply mapExcept_ok_of_all
      intro a ha
      rw [if_neg (not_le.mpr (hpos a ha).1)]
    have hs2 : mapExcept (fun p : ℚ × ℚ =>
        if p.2 ≤ 0 then Except.error "math domain error"
        else Except.ok (log p.2)) data =
        Except.ok (data.map (fun p => log p.2)) := by
      apply mapExcept_ok_of_all
      intro a ha
      rw [if_neg (not_le.mpr (hpos a ha).2)]
    rw [hs1, hs2]
    have hmap : data.map (fun p => log p.1) =
        List.replicate data.length (log s) := by
      rw [List.map_congr_left (fun p hp => by rw [hsame p hp]),
        List.map_const']
    show (if ((data.map (fun p => log p.1)).length : ℚ) *
        ((data.map (fun p => log p.1)).map (fun x => x * x)).sum -
        (data.map (fun p => log p.1)).sum *
        (data.map (fun p => log p.1)).sum = 0 then
        Except.error "ZeroDivisionError" else _) = _
    rw [hmap]
    rw [if_pos ?_]
    simp only [List.length_replicate, List.map_replicate, List.sum_replicate,
      smul_eq_mul]
    ring

/-- Witness for C5 at concrete point lists: a single pair (default), a
pair list with a zero scale (math domain error), and two pairs on one
scale (division by zero). -/
theorem C5_complexity_unfiltered_witness :
    calculate_complexity_exponent statsLibModel.logQ [(5, 7)] =
        Except.ok (1, 0) ∧
      calculate_complexity_exponent statsLibModel.logQ [(0, 5), (2, 10)] =
        Except.error "math domain error" ∧
      calculate_complexity_exponent statsLibModel.logQ [(1, 10), (1, 20)] =
        Except.error "ZeroDivisionError" :=
  ⟨(C5_complexity_unfiltered statsLibModel.logQ [(5, 7)] 0).1 (by decide),
   (C5_complexity_unfiltered statsLibModel.logQ [(0, 5), (2, 10)] 0).2.1
     (by decide) (of_decide_eq_true (by with_unfolding_all rfl)),
   (C5_complexity_unfiltered statsLibModel.logQ [(1, 10), (1, 20)] 1).2.2
     (by decide) (of_decide_eq_true (by with_unfolding_all rfl))
     (of_decide_eq_true (by with_unfolding_all rfl))⟩

/-- C8: for a group of at least 4 successful observations, an observation
is flagged as an outlier exactly when its value is strictly below
`q1 - 1.5*iqr` or strictly above `q3 + 1.5*iqr` (the 25th/75th
percentiles being interpolated as numpy does); a value exactly equal to
either bound is not flagged. -/
theorem C8_outlier_iff (times : List ℚ) (srs : List PublicationTestResult)
    (h4 : 4 ≤ times.length) (i : ℕ) (hi : i < times.length) :
    (i ∈ (outlierEntries times srs).map (fun e => e.index)) ↔
      (times[i] < percentileNp times 25 -
          3 / 2 * (percentileNp times 75 - percentileNp times 25) ∨
        times[i] > percentileNp times 75 +
          3 / 2 * (percentileNp times 75 - percentileNp times 25)) := by
  simp only [outlierEntries]
  constructor
  · intro hmem
    obtain ⟨e, he, hei⟩ := List.mem_map.mp hmem
    obtain ⟨a, ha, hfa⟩ := List.mem_filterMap.mp he
    obtain ⟨j, t⟩ := a
    split at hfa
    · rename_i hc
      have hj : times[j]? = some t := List.mk_mem_enum_iff_getElem?.mp ha
      have hidx : e.index = j := by rw [← Option.some_inj.mp hfa]
      have hij : i = j := hei.symm.trans hidx
      subst hij
      rw [List.getElem?_eq_getElem hi] at hj
      rw [Option.some_inj.mp hj.symm] at hc
      exact hc
    · exact Option.noConfusion hfa
  · intro hc
    apply List.mem_map.mpr
    refine ⟨⟨i, times[i],
      |times[i] - median times|,
      if times[i] < (percentileNp times 25 -
          3 / 2 * (percentileNp times 75 - percentileNp times 25)) * (1 / 2) ∨
          times[i] > (percentileNp times 75 +
            3 / 2 * (percentileNp times 75 - percentileNp times 25)) * (3 / 2)
        then "mild" else "moderate",
      srs.getD i default⟩, ?_, rfl⟩
    apply List.mem_filterMap.mpr
    refine ⟨(i, times[i]), ?_, ?_⟩
    · exact List.mk_mem_enum_iff_getElem?.mpr (List.getElem?_eq_getElem hi)
    · rw [if_pos hc]

/-- Witness for C8 at the scenario-D data, whose last observation (500)
is flagged. -/
theorem C8_outlier_iff_witness :
    (5 ∈ (outlierEntries [10, 11, 9, 12, 10, 500] []).map (fun e => e.index))
      ↔
      ((500 : ℚ) < percentileNp [10, 11, 9, 12, 10, 500] 25 -
          3 / 2 * (percentileNp [10, 11, 9, 12, 10, 500] 75 -
            percentileNp [10, 11, 9, 12, 10, 500] 25) ∨
        (500 : ℚ) > percentileNp [10, 11, 9, 12, 10, 500] 75 +
          3 / 2 * (percentileNp [10, 11, 9, 12, 10, 500] 75 -
            percentileNp [10, 11, 9, 12, 10, 500] 25)) :=
  C8_outlier_iff [10, 11, 9, 12, 10, 500] [] (by decide) 5 (by decide)

theorem mwScore_total (a b : ℚ) : mwScore a b + mwScore b a = 1 := by
  unfold mwScore
  rcases lt_trichotomy a b with h | h | h
  · rw [if_neg (not_lt.mpr h.le), if_neg h.ne, if_pos h]
    norm_num
  · rw [if_neg (not_lt.mpr h.le), if_pos h, if_neg (not_lt.mpr h.ge),
      if_pos h.symm]
    norm_num
  · rw [if_pos h, if_neg (not_lt.mpr h.le), if_neg h.ne]
    norm_num

theorem mannWhitneyU_total (d2 : List ℚ) : ∀ d1 : List ℚ,
    mannWhitneyU d1 d2 + mannWhitneyU d2 d1 =
      (d1.length : ℚ) * (d2.length : ℚ)
  | [] => by
    unfold mannWhitneyU
    simp
  | x :: xs => by
    have ih := mannWhitneyU_total d2 xs
    unfold mannWhitneyU at ih ⊢
    simp only [List.map_cons, List.sum_cons, List.length_cons]
    rw [List.sum_map_add]
    have hone : (d2.map (fun a => mwScore x a)).sum +
        (d2.map (fun a => mwScore a x)).sum = (d2.length : ℚ) := by
      rw [← List.sum_map_add]
      have : (d2.map (fun a => mwScore x a + mwScore a x)) =
          d2.map (fun _ => (1 : ℚ)) := by
        apply List.map_congr_left
        intro a _
        exact mwScore_total x a
      rw [this, List.map_const', List.sum_replicate, nsmul_eq_mul, mul_one]
    push_cast
    linarith [hone, ih]

theorem mannwhitneyuTwoSided_swap (lib : StatsLib) (d1 d2 : List ℚ) :
    mannwhitneyuTwoSided lib d2 d1 =
      (fun p => (mannWhitneyU d2 d1, p)) <$>
        lib.mannP
          |mannWhitneyU d1 d2 - (d1.length : ℚ) * (d2.length : ℚ) / 2|
          ((d1 : Multiset ℚ) + (d2 : Multiset ℚ)) := by
  simp only [mannwhitneyuTwoSided]
  have habs : |mannWhitneyU d2 d1 - (d2.length : ℚ) * (d1.length : ℚ) / 2| =
      |mannWhitneyU d1 d2 - (d1.length : ℚ) * (d2.length : ℚ) / 2| := by
    have htot := mannWhitneyU_total d1 d2
    have : mannWhitneyU d2 d1 - (d2.length : ℚ) * (d1.length : ℚ) / 2 =
        -(mannWhitneyU d1 d2 - (d1.length : ℚ) * (d2.length : ℚ) / 2) := by
      nlinarith [htot]
    rw [this, abs_neg]
  rw [habs, add_comm ((d2 : Multiset ℚ)) ((d1 : Multiset ℚ))]
  generalize lib.mannP
    |mannWhitneyU d1 d2 - (d1.length : ℚ) * (d2.length : ℚ) / 2|
    ((d1 : Multiset ℚ) + (d2 : Multiset ℚ)) = m
  cases m <;> rfl

theorem ttestIndEqual_swap (lib : StatsLib) (d1 d2 : List ℚ) :
    ttestIndEqual lib d2 d1 =
      (-(ttestIndEqual lib d1 d2).1, (ttestIndEqual lib d1 d2).2) := by
  unfold ttestIndEqual
  have hpool : ((d2.length : ℚ) - 1) * sampleVariance d2 +
      ((d1.length : ℚ) - 1) * sampleVariance d1 =
      ((d1.length : ℚ) - 1) * sampleVariance d1 +
      ((d2.length : ℚ) - 1) * sampleVariance d2 := add_comm _ _
  have hden : (d2.length : ℚ) + (d1.length : ℚ) - 2 =
      (d1.length : ℚ) + (d2.length : ℚ) - 2 := by ring
  have hinv : 1 / (d2.length : ℚ) + 1 / (d1.length : ℚ) =
      1 / (d1.length : ℚ) + 1 / (d2.length : ℚ) := add_comm _ _
  simp only
  rw [hpool, hden, hinv, ← neg_sub (mean d1) (mean d2), neg_div, abs_neg]

theorem welch_satterthwaite_df_swap (d1 d2 : List ℚ) :
    welch_satterthwaite_df d2 d1 = welch_satterthwaite_df d1 d2 := by
  unfold welch_satterthwaite_df
  have hnum : (sampleVariance d2 / (d2.length : ℚ) +
      sampleVariance d1 / (d1.length : ℚ)) ^ 2 =
      (sampleVariance d1 / (d1.length : ℚ) +
      sampleVariance d2 / (d2.length : ℚ)) ^ 2 := by ring
  have hden : sampleVariance d2 ^ 2 / ((d2.length : ℚ) ^ 2 *
        ((d2.length : ℚ) - 1)) +
      sampleVariance d1 ^ 2 / ((d1.length : ℚ) ^ 2 * ((d1.length : ℚ) - 1)) =
      sampleVariance d1 ^ 2 / ((d1.length : ℚ) ^ 2 *
        ((d1.length : ℚ) - 1)) +
      sampleVariance d2 ^ 2 / ((d2.length : ℚ) ^ 2 * ((d2.length : ℚ) - 1)) :=
    add_comm _ _
  simp only
  rw [hnum, hden, min_comm]

theorem ttestIndWelch_swap (lib : StatsLib) (d1 d2 : List ℚ) :
    ttestIndWelch lib d2 d1 =
      (-(ttestIndWelch lib d1 d2).1, (ttestIndWelch lib d1 d2).2) := by
  unfold ttestIndWelch
  have hse : sampleVariance d2 / (d2.length : ℚ) +
      sampleVariance d1 / (d1.length : ℚ) =
      sampleVariance d1 / (d1.length : ℚ) +
      sampleVariance d2 / (d2.length : ℚ) := add_comm _ _
  simp only
  rw [hse, welch_satterthwaite_df_swap, ← neg_sub (mean d1) (mean d2),
    neg_div, abs_neg]

theorem calculate_cohens_d_swap (lib : StatsLib) (d1 d2 : List ℚ) :
    calculate_cohens_d lib d2 d1 = calculate_cohens_d lib d1 d2 := by
  unfold calculate_cohens_d
  have hpool : ((d2.length : ℚ) - 1) *
      (if d2.length > 1 then sampleStdev lib d2 else 0) ^ 2 +
      ((d1.length : ℚ) - 1) *
      (if d1.length > 1 then sampleStdev lib d1 else 0) ^ 2 =
      ((d1.length : ℚ) - 1) *
      (if d1.length > 1 then sampleStdev lib d1 else 0) ^ 2 +
      ((d2.length : ℚ) - 1) *
      (if d2.length > 1 then sampleStdev lib d2 else 0) ^ 2 := add_comm _ _
  have hden : (d2.length : ℚ) + (d1.length : ℚ) - 2 =
      (d1.length : ℚ) + (d2.length : ℚ) - 2 := by ring
  simp only
  rw [hpool, hden, abs_sub_comm]

theorem check_equal_variance_swap (lib : StatsLib) (d1 d2 : List ℚ) :
    check_equal_variance lib d2 d1 = check_equal_variance lib d1 d2 := by
  unfold check_equal_variance
  rw [Multiset.pair_comm d2 d1]
  by_cases h1 : d1.length < 3 <;> by_cases h2 : d2.length < 3 <;>
    simp [h1, h2]

theorem runChosenTest_t (lib : StatsLib) (d1 d2 : List ℚ)
    (hn1 : check_normality lib d1 = true)
    (hn2 : check_normality lib d2 = true)
    (hv : check_equal_variance lib d1 d2 = true) :
    runChosenTest lib d1 d2 = Except.ok ("Independent t-test",
      (ttestIndEqual lib d1 d2).1, (ttestIndEqual lib d1 d2).2) := by
  unfold runChosenTest
  rw [if_pos ⟨hn1, hn2, hv⟩]

theorem runChosenTest_w (lib : StatsLib) (d1 d2 : List ℚ)
    (hn1 : check_normality lib d1 = true)
    (hn2 : check_normality lib d2 = true)
    (hv : check_equal_variance lib d1 d2 = false) :
    runChosenTest lib d1 d2 = Except.ok ("Welch's t-test",
      (ttestIndWelch lib d1 d2).1, (ttestIndWelch lib d1 d2).2) := by
  unfold runChosenTest
  rw [if_neg (fun hc => by rw [hv] at hc; exact Bool.false_ne_true hc.2.2),
    if_pos ⟨hn1, hn2, by rw [hv]; exact Bool.false_ne_true⟩]

theorem runChosenTest_mw (lib : StatsLib) (d1 d2 : List ℚ)
    (hmw : ¬ (check_normality lib d1 = true ∧
      check_normality lib d2 = true)) :
    runChosenTest lib d1 d2 =
      (fun r : ℚ × ℚ => ("Mann-Whitney U test", r.1, r.2)) <$>
        mannwhitneyuTwoSided lib d1 d2 := by
  unfold runChosenTest
  rw [if_neg (fun hc => hmw ⟨hc.1, hc.2.1⟩),
    if_neg (fun hc => hmw ⟨hc.1, hc.2.1⟩)]
  generalize mannwhitneyuTwoSided lib d1 d2 = m
  cases m <;> rfl

theorem perform_fields_t (lib : StatsLib) (s : ℚ) (d1 d2 : List ℚ)
    (r1 r2 op : String) (hn1 : check_normality lib d1 = true)
    (hn2 : check_normality lib d2 = true)
    (hv : check_equal_variance lib d1 d2 = true) :
    (perform_statistical_test lib s d1 d2 r1 r2 op).p_value =
      (ttestIndEqual lib d1 d2).2 ∧
    (perform_statistical_test lib s d1 d2 r1 r2 op).effect_size =
      calculate_cohens_d lib d1 d2 := by
  unfold perform_statistical_test
  rw [runChosenTest_t lib d1 d2 hn1 hn2 hv]
  constructor <;> rfl

theorem perform_fields_w (lib : StatsLib) (s : ℚ) (d1 d2 : List ℚ)
    (r1 r2 op : String) (hn1 : check_normality lib d1 = true)
    (hn2 : check_normality lib d2 = true)
    (hv : check_equal_variance lib d1 d2 = false) :
    (perform_statistical_test lib s d1 d2 r1 r2 op).p_value =
      (ttestIndWelch lib d1 d2).2 ∧
    (perform_statistical_test lib s d1 d2 r1 r2 op).effect_size =
      calculate_cohens_d lib d1 d2 := by
  unfold perform_statistical_test
  rw [runChosenTest_w lib d1 d2 hn1 hn2 hv]
  constructor <;> rfl

theorem perform_fields_mw_ok (lib : StatsLib) (s : ℚ) (d1 d2 : List ℚ)
    (r1 r2 op : String)
    (hmw : ¬ (check_normality lib d1 = true ∧ check_normality lib d2 = true))
    (u p : ℚ) (hm : mannwhitneyuTwoSided lib d1 d2 = Except.ok (u, p)) :
    (perform_statistical_test lib s d1 d2 r1 r2 op).p_value = p ∧
    (perform_statistical_test lib s d1 d2 r1 r2 op).effect_size =
      calculate_rank_biserial d1 d2 u := by
  unfold perform_statistical_test
  rw [runChosenTest_mw lib d1 d2 hmw, hm]
  constructor <;> rfl

theorem perform_fields_err (lib : StatsLib) (s : ℚ) (d1 d2 : List ℚ)
    (r1 r2 op : String)
    (hmw : ¬ (check_normality lib d1 = true ∧ check_normality lib d2 = true))
    (hm : mannwhitneyuTwoSided lib d1 d2 = Except.error ()) :
    (perform_statistical_test lib s d1 d2 r1 r2 op).p_value = 1 ∧
    (perform_statistical_test lib s d1 d2 r1 r2 op).effect_size = 0 := by
  unfold perform_statistical_test
  rw [runChosenTest_mw lib d1 d2 hmw, hm]
  exact ⟨rfl, rfl⟩

theorem C6_mw_case (lib : StatsLib) (s : ℚ) (d1 d2 : List ℚ)
    (r1 r2 op : String)
    (hmw : ¬ (check_normality lib d1 = true ∧ check_normality lib d2 = true))
    (h1 : 3 ≤ d1.length) (h2 : 3 ≤ d2.length) :
    (perform_statistical_test lib s d2 d1 r2 r1 op).p_value =
      (perform_statistical_test lib s d1 d2 r1 r2 op).p_value ∧
    (perform_statistical_test lib s d2 d1 r2 r1 op).effect_size =
      -(perform_statistical_test lib s d1 d2 r1 r2 op).effect_size := by
  have hmw' : ¬ (check_normality lib d2 = true ∧
      check_normality lib d1 = true) := fun hc => hmw ⟨hc.2, hc.1⟩
  cases hm : lib.mannP
      |mannWhitneyU d1 d2 - (d1.length : ℚ) * (d2.length : ℚ) / 2|
      ((d1 : Multiset ℚ) + (d2 : Multiset ℚ)) with
  | ok p =>
    have hAB : mannwhitneyuTwoSided lib d1 d2 =
        Except.ok (mannWhitneyU d1 d2, p) := by
      simp only [mannwhitneyuTwoSided]
      rw [hm]
      rfl
    have hBA : mannwhitneyuTwoSided lib d2 d1 =
        Except.ok (mannWhitneyU d2 d1, p) := by
      rw [mannwhitneyuTwoSided_swap, hm]
      rfl
    obtain ⟨hp1, he1⟩ :=
      perform_fields_mw_ok lib s d1 d2 r1 r2 op hmw _ _ hAB
    obtain ⟨hp2, he2⟩ :=
      perform_fields_mw_ok lib s d2 d1 r2 r1 op hmw' _ _ hBA
    refine ⟨by rw [hp1, hp2], ?_⟩
    rw [he1, he2]
    unfold calculate_rank_biserial
    have htot := mannWhitneyU_total d2 d1
    have hq1 : (d1.length : ℚ) ≠ 0 := by
      have : 0 < d1.length := by omega
      exact_mod_cast Nat.pos_iff_ne_zero.mp this
    have hq2 : (d2.length : ℚ) ≠ 0 := by
      have : 0 < d2.length := by omega
      exact_mod_cast Nat.pos_iff_ne_zero.mp this
    have hU : mannWhitneyU d2 d1 =
        (d1.length : ℚ) * (d2.length : ℚ) - mannWhitneyU d1 d2 := by
      linarith [htot]
    rw [hU, mul_comm ((d2.length : ℚ)) ((d1.length : ℚ))]
    field_simp
    ring
  | error e =>
    cases e
    have hAB : mannwhitneyuTwoSided lib d1 d2 = Except.error () := by
      simp only [mannwhitneyuTwoSided]
      rw [hm]
      rfl
    have hBA : mannwhitneyuTwoSided lib d2 d1 = Except.error () := by
      rw [mannwhitneyuTwoSided_swap, hm]
      rfl
    obtain ⟨hp1, he1⟩ := perform_fields_err lib s d1 d2 r1 r2 op hmw hAB
    obtain ⟨hp2, he2⟩ := perform_fields_err lib s d2 d1 r2 r1 op hmw' hBA
    exact ⟨by rw [hp1, hp2], by rw [he1, he2, neg_zero]⟩

/-- C6 counterexample: comparing `[1,2,3]` vs `[4,5,6]` under a library
model on which both groups are classified normal with equal variances,
the two comparison directions both report effect size 3 (Cohen's d is
computed as an absolute value), so the effect sizes of the two
directions do not have opposite sign as the claim states. -/
theorem C6_counterexample :
    (perform_statistical_test statsLibModel (1 / 20) [1, 2, 3] [4, 5, 6]
      "A" "B" "op").effect_size = 3 ∧
    (perform_statistical_test statsLibModel (1 / 20) [4, 5, 6] [1, 2, 3]
      "B" "A" "op").effect_size = 3 ∧
    ¬ ((perform_statistical_test statsLibModel (1 / 20) [4, 5, 6] [1, 2, 3]
        "B" "A" "op").effect_size =
      -(perform_statistical_test statsLibModel (1 / 20) [1, 2, 3] [4, 5, 6]
        "A" "B" "op").effect_size) := by
  refine ⟨?_, ?_, ?_⟩
  · with_unfolding_all rfl
  · with_unfolding_all rfl
  · intro h
    rw [show (perform_statistical_test statsLibModel (1 / 20) [4, 5, 6]
        [1, 2, 3] "B" "A" "op").effect_size = 3 from by with_unfolding_all rfl,
      show (perform_statistical_test statsLibModel (1 / 20) [1, 2, 3]
        [4, 5, 6] "A" "B" "op").effect_size = 3 from by
        with_unfolding_all rfl] at h
    norm_num at h

/-- C6 (amended): for groups with at least 3 observations each, the two
comparison directions yield equal p-values and the mean difference flips
sign; the effect size has equal magnitude in both directions, flipping
sign in the Mann-Whitney branch, but in the t-test branches Cohen's d is
an absolute value and is equal (not sign-flipped) in the two
directions. -/
theorem C6_symmetry (lib : StatsLib) (s : ℚ) (d1 d2 : List ℚ)
    (r1 r2 op : String) (h1 : 3 ≤ d1.length) (h2 : 3 ≤ d2.length) :
    (perform_statistical_test lib s d2 d1 r2 r1 op).p_value =
      (perform_statistical_test lib s d1 d2 r1 r2 op).p_value ∧
    mean d2 - mean d1 = -(mean d1 - mean d2) ∧
    ((check_normality lib d1 = true ∧ check_normality lib d2 = true) →
      (perform_statistical_test lib s d2 d1 r2 r1 op).effect_size =
        (perform_statistical_test lib s d1 d2 r1 r2 op).effect_size) ∧
    (¬ (check_normality lib d1 = true ∧ check_normality lib d2 = true) →
      (perform_statistical_test lib s d2 d1 r2 r1 op).effect_size =
        -(perform_statistical_test lib s d1 d2 r1 r2 op).effect_size) := by
  by_cases hn1 : check_normality lib d1 = true
  · by_cases hn2 : check_normality lib d2 = true
    · by_cases hv : check_equal_variance lib d1 d2 = true
      · have hv' : check_equal_variance lib d2 d1 = true := by
          rw [check_equal_variance_swap]
          exact hv
        have hAB := perform_fields_t lib s d1 d2 r1 r2 op hn1 hn2 hv
        have hBA := perform_fields_t lib s d2 d1 r2 r1 op hn2 hn1 hv'
        refine ⟨?_, by ring, fun _ => ?_, fun hc => absurd ⟨hn1, hn2⟩ hc⟩
        · rw [hAB.1, hBA.1, ttestIndEqual_swap]
        · rw [hAB.2, hBA.2, calculate_cohens_d_swap]
      · have hvf : check_equal_variance lib d1 d2 = false :=
          Bool.not_eq_true _ ▸ eq_false_of_ne_true hv
        have hv' : check_equal_variance lib d2 d1 = false := by
          rw [check_equal_variance_swap]
          exact hvf
        have hAB := perform_fields_w lib s d1 d2 r1 r2 op hn1 hn2 hvf
        have hBA := perform_fields_w lib s d2 d1 r2 r1 op hn2 hn1 hv'
        refine ⟨?_, by ring, fun _ => ?_, fun hc => absurd ⟨hn1, hn2⟩ hc⟩
        · rw [hAB.1, hBA.1, ttestIndWelch_swap]
        · rw [hAB.2, hBA.2, calculate_cohens_d_swap]
    · have hmw : ¬ (check_normality lib d1 = true ∧
          check_normality lib d2 = true) := fun hc => hn2 hc.2
      have hc6 := C6_mw_case lib s d1 d2 r1 r2 op hmw h1 h2
      exact ⟨hc6.1, by ring, fun hc => absurd hc hmw, fun _ => hc6.2⟩
  · have hmw : ¬ (check_normality lib d1 = true ∧
        check_normality lib d2 = true) := fun hc => hn1 hc.1
    have hc6 := C6_mw_case lib s d1 d2 r1 r2 op hmw h1 h2
    exact ⟨hc6.1, by ring, fun hc => absurd hc hmw, fun _ => hc6.2⟩

/-- Witness for C6 at the concrete library model and concrete groups. -/
theorem C6_symmetry_witness :
    (perform_statistical_test statsLibModel (1 / 20) [4, 5, 6] [1, 2, 3]
        "B" "A" "op").p_value =
      (perform_statistical_test statsLibModel (1 / 20) [1, 2, 3] [4, 5, 6]
        "A" "B" "op").p_value ∧
    mean [4, 5, 6] - mean [1, 2, 3] = -(mean [1, 2, 3] - mean [4, 5, 6]) ∧
    ((check_normality statsLibModel [1, 2, 3] = true ∧
        check_normality statsLibModel [4, 5, 6] = true) →
      (perform_statistical_test statsLibModel (1 / 20) [4, 5, 6] [1, 2, 3]
          "B" "A" "op").effect_size =
        (perform_statistical_test statsLibModel (1 / 20) [1, 2, 3] [4, 5, 6]
          "A" "B" "op").effect_size) ∧
    (¬ (check_normality statsLibModel [1, 2, 3] = true ∧
        check_normality statsLibModel [4, 5, 6] = true) →
      (perform_statistical_test statsLibModel (1 / 20) [4, 5, 6] [1, 2, 3]
          "B" "A" "op").effect_size =
        -(perform_statistical_test statsLibModel (1 / 20) [1, 2, 3] [4, 5, 6]
          "A" "B" "op").effect_size) :=
  C6_symmetry statsLibModel (1 / 20) [1, 2, 3] [4, 5, 6] "A" "B" "op"
    (by decide) (by decide)

theorem lookupG_cons {K R : Type} [DecidableEq K] (a : K) (rs : List R)
    (t : List (K × List R)) (k : K) :
    lookupG ((a, rs) :: t) k = if a = k then rs else lookupG t k := by
  unfold lookupG
  by_cases h : a = k <;> simp [List.find?, h]

theorem lookupG_addToGroup {K R : Type} [DecidableEq K]
    (k' k : K) (r : R) : ∀ l : List (K × List R),
    lookupG (addToGroup l k' r) k =
      lookupG l k ++ (if k' = k then [r] else [])
  | [] => by
    unfold addToGroup
    rw [lookupG_cons]
    by_cases h : k' = k <;> simp [lookupG, h]
  | (a, rs) :: t => by
    unfold addToGroup
    by_cases h : a = k'
    · rw [if_pos h, lookupG_cons, lookupG_cons]
      by_cases ha : a = k
      · have hk : k' = k := h.symm.trans ha
        simp [ha, hk]
      · have hk : k' ≠ k := fun hc => ha (h.trans hc)
        simp [ha, hk]
    · rw [if_neg h, lookupG_cons, lookupG_cons]
      by_cases ha : a = k
      · have hk : k' ≠ k := fun hc => h (ha.trans hc.symm)
        simp [ha, hk]
      · simp [ha, lookupG_addToGroup k' k r t]

theorem lookupG_groupBy_aux {K R : Type} [DecidableEq K] (key : R → K)
    (k : K) : ∀ (rs : List R) (acc : List (K × List R)),
    lookupG (rs.foldl (fun a r => addToGroup a (key r) r) acc) k =
      lookupG acc k ++ rs.filter (fun r => key r = k)
  | [], acc => by simp
  | x :: xs, acc => by
    rw [List.foldl_cons, lookupG_groupBy_aux key k xs _, lookupG_addToGroup]
    by_cases h : key x = k <;>
      simp [List.filter_cons, h, List.append_assoc]

theorem lookupG_groupBy {K R : Type} [DecidableEq K] (key : R → K)
    (rs : List R) (k : K) :
    lookupG (groupBy key rs) k = rs.filter (fun r => key r = k) := by
  unfold groupBy
  rw [lookupG_groupBy_aux]
  simp [lookupG]

theorem lookupG2_cons {K1 K2 V : Type} [DecidableEq K1] [DecidableEq K2]
    (a : K1) (m : List (K2 × List V)) (tl : List (K1 × List (K2 × List V)))
    (k1 : K1) (k2 : K2) :
    lookupG2 ((a, m) :: tl) k1 k2 =
      if a = k1 then lookupG m k2 else lookupG2 tl k1 k2 := by
  unfold lookupG2
  by_cases h : a = k1 <;> simp [List.find?, h]

theorem lookupG2_addToGroup2 {K1 K2 V : Type} [DecidableEq K1]
    [DecidableEq K2] (k1 : K1) (k2 : K2) (v : V) (a : K1) (b : K2) :
    ∀ l : List (K1 × List (K2 × List V)),
    lookupG2 (addToGroup2 l k1 k2 v) a b =
      lookupG2 l a b ++ (if k1 = a ∧ k2 = b then [v] else [])
  | [] => by
    unfold addToGroup2
    rw [lookupG2_cons]
    by_cases h1 : k1 = a
    · rw [if_pos h1, lookupG_cons]
      by_cases h2 : k2 = b <;> simp [lookupG2, lookupG, h1, h2]
    · rw [if_neg h1]
      simp [lookupG2, lookupG, h1]
  | (a', m) :: tl => by
    unfold addToGroup2
    by_cases h : a' = k1
    · rw [if_pos h, lookupG2_cons, lookupG2_cons]
      by_cases ha : a' = a
      · have hk1a : k1 = a := h.symm.trans ha
        rw [if_pos ha, if_pos ha, lookupG_addToGroup]
        by_cases h2 : k2 = b <;> simp [hk1a, h2]
      · have hne : ¬ (k1 = a ∧ k2 = b) := fun hc => ha (h.trans hc.1)
        simp [ha, hne]
    · rw [if_neg h, lookupG2_cons, lookupG2_cons]
      by_cases ha : a' = a
      · have hne : ¬ (k1 = a ∧ k2 = b) := fun hc => h (ha.trans hc.1.symm)
        simp [ha, hne]
      · simp [ha, lookupG2_addToGroup2 k1 k2 v a b tl]

theorem lookupG2_foldl {K1 K2 V R : Type} [DecidableEq K1] [DecidableEq K2]
    (c : R → Bool) (g1 : R → K1) (g2 : R → K2) (v : R → V) (a : K1) (b : K2) :
    ∀ (rs : List R) (acc : List (K1 × List (K2 × List V))),
    lookupG2 (rs.foldl (fun acc r =>
        if c r then addToGroup2 acc (g1 r) (g2 r) (v r) else acc) acc) a b =
      lookupG2 acc a b ++
        ((rs.filter (fun r =>
          c r && decide (g1 r = a) && decide (g2 r = b))).map v)
  | [], acc => by simp
  | x :: xs, acc => by
    rw [List.foldl_cons, lookupG2_foldl c g1 g2 v a b xs _]
    by_cases hc : c x
    · rw [if_pos hc, lookupG2_addToGroup2]
      by_cases h1 : g1 x = a <;> by_cases h2 : g2 x = b <;>
        simp [List.filter_cons, hc, h1, h2, List.append_assoc]
    · rw [if_neg hc]
      have hcf : c x = false := eq_false_of_ne_true hc
      simp [List.filter_cons, hcf]

/-- C9: every sample list the engine derives statistics from contains
exactly the observations with `success` and not `timeout_occurred`: the
per-(reasoner, operation) groups of the basic statistics and outlier
analysis (both read `group_results` and then filter), the
hypothesis-test samples of `_significance_testing`, the per-reasoner
groups of `_performance_profiling`, and the scale groups of
`_scalability_analysis` all reduce to a filter requiring
`success ∧ ¬timeout_occurred`; in particular an observation marked
successful but timed out is in none of them. -/
theorem C9_success_filter (rs : List PublicationTestResult)
    (reasoner op : String) (scale : ℤ) :
    ((lookupG (group_results rs) (reasoner, op)).filter obsOK =
      (rs.filter (fun r =>
        ((r.reasoner_name, r.test_operation) : String × String) =
          (reasoner, op))).filter obsOK) ∧
    (lookupG2 (operationGroups rs) op reasoner =
      (rs.filter (fun r => obsOK r && decide (r.test_operation = op) &&
        decide (r.reasoner_name = reasoner))).map
          (fun r => r.execution_time_ms)) ∧
    ((lookupG (group_by_reasoner rs) reasoner).filter obsOK =
      (rs.filter (fun r => r.reasoner_name = reasoner)).filter obsOK) ∧
    (lookupG2 (scaleGroups rs) scale reasoner =
      rs.filter (fun r => obsOK r && decide (r.triples_count = scale) &&
        decide (r.reasoner_name = reasoner))) ∧
    (∀ r ∈ (lookupG (group_results rs) (reasoner, op)).filter obsOK,
      r.success = true ∧ r.timeout_occurred = false) := by
  refine ⟨?_, ?_, ?_, ?_, ?_⟩
  · rw [group_results, lookupG_groupBy]
  · rw [operationGroups, lookupG2_foldl]
    simp [lookupG2, lookupG]
  · rw [group_by_reasoner, lookupG_groupBy]
  · rw [scaleGroups, lookupG2_foldl (fun r => obsOK r)
      (fun r => r.triples_count) (fun r => r.reasoner_name) (fun r => r)]
    simp [lookupG2, lookupG]
  · intro r hr
    have hok : obsOK r = true := (List.mem_filter.mp hr).2
    unfold obsOK at hok
    rw [Bool.and_eq_true] at hok
    exact ⟨hok.1, by simpa using hok.2⟩

/-- Witness for C9 at a concrete observation list. -/
theorem C9_success_filter_witness :
    (((lookupG (group_results suiteThreeVsThree.test_results)
        ("R1", "classification")).filter obsOK =
      (suiteThreeVsThree.test_results.filter (fun r =>
        ((r.reasoner_name, r.test_operation) : String × String) =
          ("R1", "classification"))).filter obsOK) ∧
    (lookupG2 (operationGroups suiteThreeVsThree.test_results)
        "classification" "R1" =
      (suiteThreeVsThree.test_results.filter (fun r =>
        obsOK r && decide (r.test_operation = "classification") &&
        decide (r.reasoner_name = "R1"))).map
          (fun r => r.execution_time_ms)) ∧
    ((lookupG (group_by_reasoner suiteThreeVsThree.test_results)
        "R1").filter obsOK =
      (suiteThreeVsThree.test_results.filter
        (fun r => r.reasoner_name = "R1")).filter obsOK) ∧
    (lookupG2 (scaleGroups suiteThreeVsThree.test_results) 100 "R1" =
      suiteThreeVsThree.test_results.filter (fun r =>
        obsOK r && decide (r.triples_count = 100) &&
        decide (r.reasoner_name = "R1"))) ∧
    ((mkObs "R1" "classification" 1).success = true ∧
      (mkObs "R1" "classification" 1).timeout_occurred = false)) :=
  ⟨(C9_success_filter suiteThreeVsThree.test_results "R1" "classification"
      100).1,
   (C9_success_filter suiteThreeVsThree.test_results "R1" "classification"
      100).2.1,
   (C9_success_filter suiteThreeVsThree.test_results "R1" "classification"
      100).2.2.1,
   (C9_success_filter suiteThreeVsThree.test_results "R1" "classification"
      100).2.2.2.1,
   (C9_success_filter suiteThreeVsThree.test_results "R1" "classification"
      100).2.2.2.2 (mkObs "R1" "classification" 1)
     (of_decide_eq_true (by with_unfolding_all rfl))⟩

theorem chooseTestType_mem (lib : StatsLib) (d1 d2 : List ℚ) :
    chooseTestType lib d1 d2 = "Independent t-test" ∨
    chooseTestType lib d1 d2 = "Welch's t-test" ∨
    chooseTestType lib d1 d2 = "Mann-Whitney U test" := by
  unfold chooseTestType
  split_ifs <;> simp

theorem perform_test_type_cases (lib : StatsLib) (s : ℚ) (d1 d2 : List ℚ)
    (r1 r2 op : String) :
    (perform_statistical_test lib s d1 d2 r1 r2 op).test_type =
        "Independent t-test" ∨
    (perform_statistical_test lib s d1 d2 r1 r2 op).test_type =
        "Welch's t-test" ∨
    (perform_statistical_test lib s d1 d2 r1 r2 op).test_type =
        "Mann-Whitney U test" ∨
    (perform_statistical_test lib s d1 d2 r1 r2 op).test_type = "Error" := by
  cases hr : runChosenTest lib d1 d2 with
  | error e =>
    right; right; right
    unfold perform_statistical_test
    rw [hr]
  | ok t =>
    obtain ⟨ty, st, p⟩ := t
    have hty := runChosenTest_ok_type lib d1 d2 ty st p hr
    have htt : (perform_statistical_test lib s d1 d2 r1 r2 op).test_type =
        ty := by
      unfold perform_statistical_test
      rw [hr]
    rcases chooseTestType_mem lib d1 d2 with h | h | h
    · left
      rw [htt, hty, h]
    · right; left
      rw [htt, hty, h]
    · right; right; left
      rw [htt, hty, h]

/-- C1 counterexample: in a suite where reasoner R1 has one successful
observation and reasoner R2 has three on the operation "classification",
the significance-testing bundle contains no entry at all for the pair
(R1, R2): the pair is silently omitted, not recorded with test type
InsufficientData as the claim states. -/
theorem C1_counterexample :
    significance_testing statsLibModel (1 / 20) suiteOneVsThree =
      [("classification", [])] := by
  with_unfolding_all rfl

/-- C1 (amended): pairs where either side has fewer than 3 successful
observations are omitted from the significance-testing results rather
than recorded; every recorded ComparisonResult comes from two groups
with at least 3 observations each, and its test type is one of the three
hypothesis tests or "Error" — the test type "InsufficientData" never
occurs. -/
theorem C1_pairs_not_insufficient (lib : StatsLib) (s : ℚ)
    (suite : BenchmarkSuite) (op : String)
    (entries : List (String × StatisticalResult))
    (h : (op, entries) ∈ significance_testing lib s suite)
    (ke : String × StatisticalResult) (hk : ke ∈ entries) :
    ke.2.test_type ≠ "InsufficientData" ∧
    (ke.2.test_type = "Independent t-test" ∨
      ke.2.test_type = "Welch's t-test" ∨
      ke.2.test_type = "Mann-Whitney U test" ∨
      ke.2.test_type = "Error") ∧
    (∃ d1 d2 r1 r2, 3 ≤ d1.length ∧ 3 ≤ d2.length ∧
      ke.2 = perform_statistical_test lib s d1 d2 r1 r2 op) := by
  unfold significance_testing at h
  obtain ⟨og, hog, heq⟩ := List.mem_map.mp h
  have hop : og.1 = op := congrArg Prod.fst heq
  have hent : (pairsOf og.2).filterMap (fun pr =>
      if 3 ≤ pr.1.2.length ∧ 3 ≤ pr.2.2.length then
        some (pr.1.1 ++ "_vs_" ++ pr.2.1 ++ "_" ++ og.1,
          perform_statistical_test lib s pr.1.2 pr.2.2 pr.1.1 pr.2.1 og.1)
      else none) = entries := congrArg Prod.snd heq
  rw [← hent] at hk
  obtain ⟨pr, hpr, hfa⟩ := List.mem_filterMap.mp hk
  split at hfa
  · rename_i hlen
    have hke : ke.2 = perform_statistical_test lib s pr.1.2 pr.2.2
        pr.1.1 pr.2.1 og.1 := by
      rw [← Option.some_inj.mp hfa]
    refine ⟨?_, ?_, pr.1.2, pr.2.2, pr.1.1, pr.2.1, hlen.1, hlen.2,
      by rw [hke, hop]⟩
    · rcases perform_test_type_cases lib s pr.1.2 pr.2.2 pr.1.1 pr.2.1 og.1
        with h' | h' | h' | h' <;> rw [hke, h'] <;> decide
    · rcases perform_test_type_cases lib s pr.1.2 pr.2.2 pr.1.1 pr.2.1 og.1
        with h' | h' | h' | h'
      · left
        rw [hke, h']
      · right; left
        rw [hke, h']
      · right; right; left
        rw [hke, h']
      · right; right; right
        rw [hke, h']
  · exact Option.noConfusion hfa

/-- Witness for C1 at a suite in which both reasoners have 3 successful
observations: the recorded pair entry has a real test type. -/
theorem C1_pairs_not_insufficient_witness :
    (let entries := ((significance_testing statsLibModel (1 / 20)
        suiteThreeVsThree).headD ("", [])).2
     let ke := entries.headD ("", dummyStat)
     ke.2.test_type ≠ "InsufficientData" ∧
     (ke.2.test_type = "Independent t-test" ∨
       ke.2.test_type = "Welch's t-test" ∨
       ke.2.test_type = "Mann-Whitney U test" ∨
       ke.2.test_type = "Error") ∧
     (∃ d1 d2 r1 r2, 3 ≤ d1.length ∧ 3 ≤ d2.length ∧
       ke.2 = perform_statistical_test statsLibModel (1 / 20) d1 d2 r1 r2
         ((significance_testing statsLibModel (1 / 20)
           suiteThreeVsThree).headD ("", [])).1)) :=
  C1_pairs_not_insufficient statsLibModel (1 / 20) suiteThreeVsThree
    ((significance_testing statsLibModel (1 / 20)
      suiteThreeVsThree).headD ("", [])).1
    ((significance_testing statsLibModel (1 / 20)
      suiteThreeVsThree).headD ("", [])).2
    (of_decide_eq_true (by with_unfolding_all rfl))
    ((((significance_testing statsLibModel (1 / 20)
      suiteThreeVsThree).headD ("", [])).2).headD ("", dummyStat))
    (of_decide_eq_true (by with_unfolding_all rfl))

/-- C3 counterexample: on the empty observation list the suite-summary
computation of `_basic_statistical_analysis` divides by the number of
test results and raises ZeroDivisionError, which `analyze_benchmark_suite`
does not catch: the engine does not return a result bundle for every
input. -/
theorem C3_counterexample :
    analyze_benchmark_suite statsLibModel (1 / 20) emptySuite =
      Except.error "ZeroDivisionError" := by
  with_unfolding_all rfl

/-- C3 (amended): exceptions inside an individual pairwise statistical
test are recovered locally (the significance-testing component is total,
as is the outlier analysis), but the engine as a whole is not
exception-free: whenever the basic statistics, performance profiling and
scalability components all succeed the full bundle is returned, and
conversely a failure of any of these (empty suite division by zero,
zero-mean coefficient of variation, non-positive scales reaching
`math.log`, zero denominators in the breakpoint walk or efficiency
scores) propagates to the caller as an error. -/
theorem C3_error_propagation (lib : StatsLib) (s : ℚ)
    (suite : BenchmarkSuite) (b : BasicSummary × List BasicGroupEntry)
    (prof : List PerformanceProfile) (scal : List ScalabilityEntry)
    (hb : basic_statistical_analysis lib suite = Except.ok b)
    (hp : performance_profiling lib suite = Except.ok prof)
    (hs : scalability_analysis lib suite = Except.ok scal) :
    analyze_benchmark_suite lib s suite = Except.ok
      { basic_statistics := b
        significance_results := significance_testing lib s suite
        performance_profiles := prof
        scalability_entries := scal
        outlier_reports := outlier_analysis suite } := by
  unfold analyze_benchmark_suite
  rw [hb, hp, hs]
  rfl

/-- Witness for C3 at a benign one-observation suite on which every
embedded component succeeds. -/
theorem C3_error_propagation_witness :
    analyze_benchmark_suite statsLibModel (1 / 20) suiteBenign = Except.ok
      { basic_statistics := exOk (dummySummary, [])
          (basic_statistical_analysis statsLibModel suiteBenign)
        significance_results :=
          significance_testing statsLibModel (1 / 20) suiteBenign
        performance_profiles :=
          exOk [] (performance_profiling statsLibModel suiteBenign)
        scalability_entries :=
          exOk [] (scalability_analysis statsLibModel suiteBenign)
        outlier_reports := outlier_analysis suiteBenign } :=
  C3_error_propagation statsLibModel (1 / 20) suiteBenign _ _ _
    (by with_unfolding_all rfl) (by with_unfolding_all rfl)
    (by with_unfolding_all rfl)

end OwlStats
